import Mathlib

/-!
Shallow embedding of the pump decision engine of `pyscripts/logiview_logo8.py`
(the `Algorithm` class: rule evaluation, dwell-time counters and the
tank-energy estimator), together with theorems settling the frozen claims
about its specification.

Temperatures are integers in centi-degrees Celsius, possibly absent
(`Option Int`, mirroring `Optional[int] = None`).  Energy arithmetic, done in
Python floats, is modelled exactly over `ℚ`.  Python truthiness tests such as
`temp.TRET and temp.TRET > X` are modelled by an explicit `truthy` test
(`None` and `0` are falsy).
-/

namespace LogiviewLogo8

/-- Configuration constants, from the top of `logiview_logo8.py` (HEAD side). -/
def BOILER_OVERHEAT_THRESHOLD : Int := 8700

def BOILER_SAFE_THRESHOLD : Int := 8500

def CRITICAL_TANK_TEMP : Int := 7000

def RETURNS_TEMP_ON_THRESHOLD : Int := 6000

def RETURNS_TEMP_OFF_THRESHOLD : Int := 5800

def TEMP_DIFF_ON_THRESHOLD : Int := 500

def TEMP_DIFF_OFF_THRESHOLD : Int := 300

def PUMP_MIN_ON_TIME : Nat := 200

def PUMP_MIN_OFF_TIME : Nat := 100

def SPECIFIC_HEAT_CAPACITY : ℚ := 116 / 100

def ENERGY_DIFF_START : ℚ := 500

def ENERGY_DIFF_STOP : ℚ := 300

/-- Tank volume of Tank1 in liters (`self.tank_volumes['Tank1']`). -/
def tank_volume_Tank1 : ℚ := 500

/-- Tank volume of Tank2 in liters (`self.tank_volumes['Tank2']`). -/
def tank_volume_Tank2 : ℚ := 750

/-- Mirrors the `TemperatureReadings` dataclass: 11 optional centi-degree fields. -/
structure TemperatureReadings where
  T1TOP : Option Int := none
  T1MID : Option Int := none
  T1BOT : Option Int := none
  T2TOP : Option Int := none
  T2MID : Option Int := none
  T2BOT : Option Int := none
  T3TOP : Option Int := none
  T3MID : Option Int := none
  T3BOT : Option Int := none
  TRET : Option Int := none
  TBTOP : Option Int := none
  deriving DecidableEq, Repr

/-- Mirrors the `PumpStatus` dataclass: optional boolean PLC status bits. -/
structure PumpStatus where
  BP : Option Bool := none
  PT2T1 : Option Bool := none
  PT1T2 : Option Bool := none
  WDT : Option Bool := none
  deriving DecidableEq, Repr

/-- Mutable state of the `Algorithm` instance: commanded pump states, dwell
counters and rule flags. -/
structure AlgorithmState where
  pump_state_PT1T2 : Bool
  pump_runtime_PT1T2 : Nat
  pump_offtime_PT1T2 : Nat
  pump_state_PT2T1 : Bool
  pump_runtime_PT2T1 : Nat
  pump_offtime_PT2T1 : Nat
  rule_one_active : Bool
  rule_two_active : Bool
  boiler_off_active : Bool
  deriving DecidableEq, Repr

/-- The two transfer pumps addressed by name in `set_transfer_pump`. -/
inductive Pump where
  | PT1T2
  | PT2T1
  deriving DecidableEq, Repr

/-- Python truthiness of an optional integer: `None` and `0` are falsy. -/
def truthyInt : Option Int → Bool
  | none => false
  | some v => v != 0

/-- Python truthiness of an optional boolean: `None` is falsy. -/
def truthyBool : Option Bool → Bool
  | none => false
  | some b => b

/-- Mirrors `Algorithm.set_transfer_pump`: records the commanded state (the
PLC write itself is external I/O) and zeroes the opposite dwell counter:
`runtime` on a turn-on command, `offtime` on a turn-off command. -/
def set_transfer_pump (s : AlgorithmState) : Pump → Bool → AlgorithmState
  | Pump.PT1T2, state =>
      { s with pump_state_PT1T2 := state,
               pump_runtime_PT1T2 := if state then 0 else s.pump_runtime_PT1T2,
               pump_offtime_PT1T2 := if state then s.pump_offtime_PT1T2 else 0 }
  | Pump.PT2T1, state =>
      { s with pump_state_PT2T1 := state,
               pump_runtime_PT2T1 := if state then 0 else s.pump_runtime_PT2T1,
               pump_offtime_PT2T1 := if state then s.pump_offtime_PT2T1 else 0 }

/-- Mirrors `Algorithm.update_pump_counter`: increments the counter matching
the pump's current commanded state and resets the other to zero. -/
def update_pump_counter (s : AlgorithmState) : Pump → AlgorithmState
  | Pump.PT1T2 =>
      if s.pump_state_PT1T2 then
        { s with pump_runtime_PT1T2 := s.pump_runtime_PT1T2 + 1,
                 pump_offtime_PT1T2 := 0 }
      else
        { s with pump_offtime_PT1T2 := s.pump_offtime_PT1T2 + 1,
                 pump_runtime_PT1T2 := 0 }
  | Pump.PT2T1 =>
      if s.pump_state_PT2T1 then
        { s with pump_runtime_PT2T1 := s.pump_runtime_PT2T1 + 1,
                 pump_offtime_PT2T1 := 0 }
      else
        { s with pump_offtime_PT2T1 := s.pump_offtime_PT2T1 + 1,
                 pump_runtime_PT2T1 := 0 }

/-- The `emergency_condition` expression of `Algorithm.apply_rule_one`:
`(TBTOP and TBTOP > 8700) or (T1BOT and T1BOT > CRITICAL_TANK_TEMP) or
(TRET and TRET > 6000)`, with Python truthiness. -/
def emergency_condition (t : TemperatureReadings) : Bool :=
  (truthyInt t.TBTOP && decide (t.TBTOP.getD 0 > BOILER_OVERHEAT_THRESHOLD)) ||
  (truthyInt t.T1BOT && decide (t.T1BOT.getD 0 > CRITICAL_TANK_TEMP)) ||
  (truthyInt t.TRET && decide (t.TRET.getD 0 > RETURNS_TEMP_ON_THRESHOLD))

/-- The `conditions_cleared` expression of `Algorithm.apply_rule_one`:
`(TRET is not None and TRET <= 5800) and (TBTOP is not None and TBTOP < 8500)`. -/
def conditions_cleared (t : TemperatureReadings) : Bool :=
  (decide (t.TRET ≠ none) && decide (t.TRET.getD 0 ≤ RETURNS_TEMP_OFF_THRESHOLD)) &&
  (decide (t.TBTOP ≠ none) && decide (t.TBTOP.getD 0 < BOILER_SAFE_THRESHOLD))

/-- Mirrors `Algorithm.apply_rule_one` (Emergency Overheat Protection): on
the emergency condition, mark Rule One active and command PT1T2 on if the
observed status says it is off; otherwise, if Rule One was active and the
safe conditions hold after the minimum on-time, command PT1T2 off and clear
the flag.  Ends by updating PT1T2's dwell counters. -/
def apply_rule_one (s : AlgorithmState) (t : TemperatureReadings)
    (st : PumpStatus) : AlgorithmState :=
  if emergency_condition t then
    let s1 := { s with rule_one_active := true }
    let s2 := if !truthyBool st.PT1T2 then set_transfer_pump s1 Pump.PT1T2 true else s1
    update_pump_counter s2 Pump.PT1T2
  else
    let s2 :=
      if s.rule_one_active then
        if conditions_cleared t && decide (s.pump_runtime_PT1T2 ≥ PUMP_MIN_ON_TIME) then
          { set_transfer_pump s Pump.PT1T2 false with rule_one_active := false }
        else s
      else s
    update_pump_counter s2 Pump.PT1T2

/-- The `pump_start` condition of `Algorithm.apply_rule_two`:
`TRET and TRET > 6000`, else (all of T1BOT, T1MID, T2TOP present and
`T1BOT >= 5800 and T1MID > T2TOP + 500`). -/
def rule_two_pump_start (t : TemperatureReadings) : Bool :=
  if truthyInt t.TRET && decide (t.TRET.getD 0 > RETURNS_TEMP_ON_THRESHOLD) then
    true
  else if decide (t.T1BOT ≠ none) && decide (t.T1MID ≠ none) && decide (t.T2TOP ≠ none) then
    decide (t.T1BOT.getD 0 ≥ 5800) &&
    decide (t.T1MID.getD 0 > t.T2TOP.getD 0 + TEMP_DIFF_ON_THRESHOLD)
  else
    false

/-- The `pump_stop` condition of `Algorithm.apply_rule_two`: T1BOT and T3BOT
present and `(T1BOT - T3BOT) <= 300`. -/
def rule_two_pump_stop (t : TemperatureReadings) : Bool :=
  decide (t.T1BOT ≠ none) && decide (t.T3BOT ≠ none) &&
  decide (t.T1BOT.getD 0 - t.T3BOT.getD 0 ≤ TEMP_DIFF_OFF_THRESHOLD)

/-- Mirrors `Algorithm.apply_rule_two` (Normal Operation): clears the Rule
Two flag, commands PT1T2 on when the start condition holds, the observed
status is off, and the off-time floor is met; commands PT1T2 off when the
stop condition holds, the observed status is on, and the on-time floor is
met; marks Rule Two active while PT1T2 runs outside Rule One; then updates
PT1T2's dwell counters. -/
def apply_rule_two (s : AlgorithmState) (t : TemperatureReadings)
    (st : PumpStatus) : AlgorithmState :=
  let s0 := { s with rule_two_active := false }
  let s1 :=
    if rule_two_pump_start t && !truthyBool st.PT1T2 &&
        decide (s0.pump_offtime_PT1T2 ≥ PUMP_MIN_OFF_TIME) then
      { set_transfer_pump s0 Pump.PT1T2 true with rule_two_active := true }
    else s0
  let s2 :=
    if rule_two_pump_stop t && truthyBool st.PT1T2 &&
        decide (s1.pump_runtime_PT1T2 ≥ PUMP_MIN_ON_TIME) then
      set_transfer_pump s1 Pump.PT1T2 false
    else s1
  let s3 :=
    if s2.pump_state_PT1T2 && !s2.rule_one_active then
      { s2 with rule_two_active := true }
    else s2
  update_pump_counter s3 Pump.PT1T2

/-- Opening step of `Algorithm.boiler_on_algorithm`: if the commanded state
of PT2T1 is on, command it off. -/
def boiler_on_pre (s : AlgorithmState) : AlgorithmState :=
  if s.pump_state_PT2T1 then set_transfer_pump s Pump.PT2T1 false else s

/-- Mirrors `Algorithm.boiler_on_algorithm`: force PT2T1 off, apply Rule One,
and apply Rule Two only if Rule One is not active. -/
def boiler_on_algorithm (s : AlgorithmState) (t : TemperatureReadings)
    (st : PumpStatus) : AlgorithmState :=
  let s2 := apply_rule_one (boiler_on_pre s) t st
  if !s2.rule_one_active then apply_rule_two s2 t st else s2

/-- The scaled energy difference computed inside
`Algorithm.should_transfer_tank2_to_tank1` from the six tank readings:
averages in °C, per-tank energies, Tank2's energy rescaled to Tank1's
volume, minus Tank1's energy. -/
def scaled_diff_T2_T1 (t1top t1mid t1bot t2top t2mid t2bot : Int) : ℚ :=
  let avg_temp_t1 : ℚ := ((t1top : ℚ) + (t1mid : ℚ) + (t1bot : ℚ)) / 300
  let avg_temp_t2 : ℚ := ((t2top : ℚ) + (t2mid : ℚ) + (t2bot : ℚ)) / 300
  let energy_tank1 := tank_volume_Tank1 * avg_temp_t1 * SPECIFIC_HEAT_CAPACITY
  let energy_tank2 := tank_volume_Tank2 * avg_temp_t2 * SPECIFIC_HEAT_CAPACITY
  let scaled_energy_t2 := energy_tank2 / tank_volume_Tank2 * tank_volume_Tank1
  scaled_energy_t2 - energy_tank1

/-- Mirrors `Algorithm.should_transfer_tank2_to_tank1`: returns `false` when
any of the six tank readings is absent; otherwise compares the scaled energy
difference against the hysteresis thresholds, `ENERGY_DIFF_START` while the
pump is commanded off and `ENERGY_DIFF_STOP` while it is commanded on. -/
def should_transfer_tank2_to_tank1 (s : AlgorithmState)
    (t : TemperatureReadings) : Bool :=
  match t.T1TOP, t.T1MID, t.T1BOT with
  | some a1, some b1, some c1 =>
    match t.T2TOP, t.T2MID, t.T2BOT with
    | some a2, some b2, some c2 =>
      let diff := scaled_diff_T2_T1 a1 b1 c1 a2 b2 c2
      if !s.pump_state_PT2T1 then decide (diff > ENERGY_DIFF_START)
      else decide (diff > ENERGY_DIFF_STOP)
    | _, _, _ => false
  | _, _, _ => false

/-- The start/stop block of `Algorithm.boiler_off_algorithm`: starts PT2T1
when the scaled-energy decision is positive (subject to the off-time floor),
stops it when negative (subject to the on-time floor). -/
def boiler_off_transfer_step (s : AlgorithmState) (t : TemperatureReadings)
    (st : PumpStatus) : AlgorithmState :=
  if should_transfer_tank2_to_tank1 s t then
    if !truthyBool st.PT2T1 && decide (s.pump_offtime_PT2T1 ≥ PUMP_MIN_OFF_TIME) then
      set_transfer_pump s Pump.PT2T1 true
    else s
  else
    if truthyBool st.PT2T1 && decide (s.pump_runtime_PT2T1 ≥ PUMP_MIN_ON_TIME) then
      set_transfer_pump s Pump.PT2T1 false
    else s

/-- The closing safety check of `Algorithm.boiler_off_algorithm`: when T1BOT
and T3TOP are present and `T1BOT - T3TOP >= 200`, stop PT2T1 once its
minimum on-time has elapsed. -/
def boiler_off_safety_check (s : AlgorithmState) (t : TemperatureReadings)
    (st : PumpStatus) : AlgorithmState :=
  match t.T1BOT, t.T3TOP with
  | some b, some tp =>
    if b - tp ≥ 200 then
      if truthyBool st.PT2T1 && decide (s.pump_runtime_PT2T1 ≥ PUMP_MIN_ON_TIME) then
        set_transfer_pump s Pump.PT2T1 false
      else s
    else s
  | _, _ => s

/-- Mirrors `Algorithm.boiler_off_algorithm`: resets the Rule One and Rule
Two flags, commands PT1T2 off unconditionally, starts or stops PT2T1 from
the scaled-energy decision subject to the dwell floors, updates PT2T1's
counters, applies the safety check (`T1BOT - T3TOP >= 200` stops PT2T1 after
its minimum on-time), and marks the boiler-off rule active. -/
def boiler_off_algorithm (s : AlgorithmState) (t : TemperatureReadings)
    (st : PumpStatus) : AlgorithmState :=
  let s1 := { s with rule_one_active := false, rule_two_active := false }
  let s2 := set_transfer_pump s1 Pump.PT1T2 false
  let s3 := boiler_off_transfer_step s2 t st
  let s4 := update_pump_counter s3 Pump.PT2T1
  let s5 := boiler_off_safety_check s4 t st
  { s5 with boiler_off_active := true }

/-- Mirrors `Algorithm.execute_algorithm`: dispatch on the observed boiler
pump status `BP` to the boiler-on or boiler-off algorithm and set the
boiler-off rule flag accordingly. -/
def execute_algorithm (s : AlgorithmState) (t : TemperatureReadings)
    (st : PumpStatus) : AlgorithmState :=
  if truthyBool st.BP then
    { boiler_on_algorithm s t st with boiler_off_active := false }
  else
    { boiler_off_algorithm s t st with boiler_off_active := true }

/-- The scaling of `should_transfer_tank2_to_tank1` generalized to arbitrary
source and target volumes exactly as the code writes it:
`energy_source / volume_source * volume_target - energy_target` where
`energy = volume * avg * SPECIFIC_HEAT_CAPACITY`. -/
def scaled_energy_diff (volume_source volume_target avg_source avg_target : ℚ) : ℚ :=
  let energy_source := volume_source * avg_source * SPECIFIC_HEAT_CAPACITY
  let energy_target := volume_target * avg_target * SPECIFIC_HEAT_CAPACITY
  energy_source / volume_source * volume_target - energy_target

/-- One closed-loop cycle: the observed PLC status bits mirror the commanded
pump states of the previous cycle, with the boiler pump bit given. -/
def step_closed (s : AlgorithmState) (t : TemperatureReadings) (bp : Bool) :
    AlgorithmState :=
  execute_algorithm s t
    { BP := some bp, PT2T1 := some s.pump_state_PT2T1,
      PT1T2 := some s.pump_state_PT1T2, WDT := none }

/-- Runs `n` consecutive closed-loop boiler-on cycles, cycle `i` reading the
snapshot `ts i`. -/
def run_on (ts : Nat → TemperatureReadings) : Nat → AlgorithmState → AlgorithmState
  | 0, s => s
  | n + 1, s => run_on (fun i => ts (i + 1)) n (step_closed s (ts 0) true)

/-! Concrete cycle inputs used by witnesses and counterexamples. -/

/-- Fresh controller state: both pumps off, all counters zero, no rule active. -/
def fresh_state : AlgorithmState :=
  { pump_state_PT1T2 := false, pump_runtime_PT1T2 := 0, pump_offtime_PT1T2 := 0,
    pump_state_PT2T1 := false, pump_runtime_PT2T1 := 0, pump_offtime_PT2T1 := 0,
    rule_one_active := false, rule_two_active := false, boiler_off_active := false }

/-- Overheat snapshot: `TBTOP = 8800`, all other temperatures nominal. -/
def overheat_temp : TemperatureReadings :=
  { T1TOP := some 5000, T1MID := some 5000, T1BOT := some 5000,
    T2TOP := some 5000, T2MID := some 5000, T2BOT := some 5000,
    T3TOP := some 5000, T3MID := some 5000, T3BOT := some 5000,
    TRET := some 5000, TBTOP := some 8800 }

/-- Status: boiler pump on, both transfer pumps observed off. -/
def bp_on_status : PumpStatus :=
  { BP := some true, PT2T1 := some false, PT1T2 := some false, WDT := none }

/-- Status: boiler pump off, both transfer pumps observed off. -/
def bp_off_status : PumpStatus :=
  { BP := some false, PT2T1 := some false, PT1T2 := some false, WDT := none }

/-- State with PT1T2 commanded on and runtime zero (just turned on). -/
def c2_state : AlgorithmState :=
  { fresh_state with pump_state_PT1T2 := true, rule_two_active := true }

/-- Status for the C2 counterexample: boiler off, PT1T2 observed on. -/
def c2_status : PumpStatus :=
  { BP := some false, PT2T1 := some false, PT1T2 := some true, WDT := none }

/-- Nominal boiler-off snapshot with all readings present. -/
def c2_temp : TemperatureReadings :=
  { T1TOP := some 5000, T1MID := some 5000, T1BOT := some 5000,
    T2TOP := some 5000, T2MID := some 5000, T2BOT := some 5000,
    T3TOP := some 5000, T3MID := some 5000, T3BOT := some 5000,
    TRET := some 5000, TBTOP := some 5000 }

/-- Snapshot making Rule Two's start and stop conditions both true and the
emergency condition false: `T1BOT = 5800 ≥ 5800`, `T1MID = 7000 > T2TOP + 500`,
`T1BOT - T3BOT = 0 ≤ 300`, `TRET = 5000`, `TBTOP = 8000`. -/
def c3_temp : TemperatureReadings :=
  { T1TOP := some 6000, T1MID := some 7000, T1BOT := some 5800,
    T2TOP := some 6000, T2MID := some 6000, T2BOT := some 6000,
    T3TOP := some 5000, T3MID := some 5000, T3BOT := some 5800,
    TRET := some 5000, TBTOP := some 8000 }

/-- State with PT1T2 commanded on past its minimum on-time. -/
def c3_state : AlgorithmState :=
  { fresh_state with pump_state_PT1T2 := true, pump_runtime_PT1T2 := 200,
                     rule_two_active := true }

/-- Status for the C3 counterexample: boiler on, PT1T2 observed on. -/
def c3_status : PumpStatus :=
  { BP := some true, PT2T1 := some false, PT1T2 := some true, WDT := none }

/-- State with PT1T2 commanded off and its off-time floor already met. -/
def c3_state_off : AlgorithmState :=
  { fresh_state with pump_offtime_PT1T2 := 100 }

/-- Snapshot with `T1TOP` absent and every other reading present. -/
def c5_temp : TemperatureReadings :=
  { T1TOP := none, T1MID := some 5000, T1BOT := some 5000,
    T2TOP := some 5400, T2MID := some 5400, T2BOT := some 5400,
    T3TOP := some 5000, T3MID := some 5000, T3BOT := some 5000,
    TRET := some 5000, TBTOP := some 5000 }

/-- State with PT2T1 commanded on past its minimum on-time. -/
def pt2t1_on_state : AlgorithmState :=
  { fresh_state with pump_state_PT2T1 := true, pump_runtime_PT2T1 := 200,
                     boiler_off_active := true }

/-- Status for boiler-off cycles with PT2T1 observed running. -/
def pt2t1_on_status : PumpStatus :=
  { BP := some false, PT2T1 := some true, PT1T2 := some false, WDT := none }

/-- Snapshot whose scaled energy difference is `1160/3 ≈ 386.7 Wh`, strictly
between `ENERGY_DIFF_STOP = 300` and `ENERGY_DIFF_START = 500`, and with
`T1BOT - T3TOP = 200`, so the safety override fires. -/
def c6_temp : TemperatureReadings :=
  { T1TOP := some 5000, T1MID := some 5000, T1BOT := some 6000,
    T2TOP := some 5400, T2MID := some 5400, T2BOT := some 5400,
    T3TOP := some 5800, T3MID := some 5000, T3BOT := some 5000,
    TRET := some 5000, TBTOP := some 5000 }

/-- Snapshot like `c6_temp` but with `T3TOP = 5900`, within 2 °C of T1BOT, so
the safety override does not fire while the energy difference stays in the
hysteresis band. -/
def c6_temp_safe : TemperatureReadings :=
  { c6_temp with T3TOP := some 5900 }

/-- State with PT1T2 off and 50 cycles of accumulated off-time. -/
def c9_state : AlgorithmState :=
  { fresh_state with pump_runtime_PT1T2 := 7, pump_offtime_PT1T2 := 50,
                     rule_one_active := true, rule_two_active := true }

/-- Boiler-on snapshot satisfying Rule Two's start condition but neither the
emergency condition nor the stop condition: `T1BOT = 6000 ≥ 5800`,
`T1MID = 7000 > T2TOP + 500`, `T1BOT - T3BOT = 1000 > 300`, `TRET` absent. -/
def c10_temp : TemperatureReadings :=
  { T1TOP := some 6000, T1MID := some 7000, T1BOT := some 6000,
    T2TOP := some 6000, T2MID := some 6000, T2BOT := some 6000,
    T3TOP := some 5000, T3MID := some 5000, T3BOT := some 5000,
    TRET := none, TBTOP := some 5000 }

/-! Basic projection lemmas for the two state-mutating primitives. -/

@[simp] theorem set_PT1T2_state (s : AlgorithmState) (b : Bool) :
    (set_transfer_pump s Pump.PT1T2 b).pump_state_PT1T2 = b := rfl

@[simp] theorem set_PT1T2_runtime (s : AlgorithmState) (b : Bool) :
    (set_transfer_pump s Pump.PT1T2 b).pump_runtime_PT1T2 =
      if b then 0 else s.pump_runtime_PT1T2 := rfl

@[simp] theorem set_PT1T2_offtime (s : AlgorithmState) (b : Bool) :
    (set_transfer_pump s Pump.PT1T2 b).pump_offtime_PT1T2 =
      if b then s.pump_offtime_PT1T2 else 0 := rfl

@[simp] theorem set_PT1T2_state2 (s : AlgorithmState) (b : Bool) :
    (set_transfer_pump s Pump.PT1T2 b).pump_state_PT2T1 = s.pump_state_PT2T1 := rfl

@[simp] theorem set_PT1T2_runtime2 (s : AlgorithmState) (b : Bool) :
    (set_transfer_pump s Pump.PT1T2 b).pump_runtime_PT2T1 = s.pump_runtime_PT2T1 := rfl

@[simp] theorem set_PT1T2_offtime2 (s : AlgorithmState) (b : Bool) :
    (set_transfer_pump s Pump.PT1T2 b).pump_offtime_PT2T1 = s.pump_offtime_PT2T1 := rfl

@[simp] theorem set_PT1T2_rule_one (s : AlgorithmState) (b : Bool) :
    (set_transfer_pump s Pump.PT1T2 b).rule_one_active = s.rule_one_active := rfl

@[simp] theorem set_PT1T2_rule_two (s : AlgorithmState) (b : Bool) :
    (set_transfer_pump s Pump.PT1T2 b).rule_two_active = s.rule_two_active := rfl

@[simp] theorem set_PT2T1_state (s : AlgorithmState) (b : Bool) :
    (set_transfer_pump s Pump.PT2T1 b).pump_state_PT2T1 = b := rfl

@[simp] theorem set_PT2T1_runtime (s : AlgorithmState) (b : Bool) :
    (set_transfer_pump s Pump.PT2T1 b).pump_runtime_PT2T1 =
      if b then 0 else s.pump_runtime_PT2T1 := rfl

@[simp] theorem set_PT2T1_offtime (s : AlgorithmState) (b : Bool) :
    (set_transfer_pump s Pump.PT2T1 b).pump_offtime_PT2T1 =
      if b then s.pump_offtime_PT2T1 else 0 := rfl

@[simp] theorem set_PT2T1_state1 (s : AlgorithmState) (b : Bool) :
    (set_transfer_pump s Pump.PT2T1 b).pump_state_PT1T2 = s.pump_state_PT1T2 := rfl

@[simp] theorem set_PT2T1_runtime1 (s : AlgorithmState) (b : Bool) :
    (set_transfer_pump s Pump.PT2T1 b).pump_runtime_PT1T2 = s.pump_runtime_PT1T2 := rfl

@[simp] theorem set_PT2T1_offtime1 (s : AlgorithmState) (b : Bool) :
    (set_transfer_pump s Pump.PT2T1 b).pump_offtime_PT1T2 = s.pump_offtime_PT1T2 := rfl

@[simp] theorem set_PT2T1_rule_one (s : AlgorithmState) (b : Bool) :
    (set_transfer_pump s Pump.PT2T1 b).rule_one_active = s.rule_one_active := rfl

@[simp] theorem set_PT2T1_rule_two (s : AlgorithmState) (b : Bool) :
    (set_transfer_pump s Pump.PT2T1 b).rule_two_active = s.rule_two_active := rfl

@[simp] theorem update_PT1T2_state (s : AlgorithmState) :
    (update_pump_counter s Pump.PT1T2).pump_state_PT1T2 = s.pump_state_PT1T2 := by
  by_cases h : s.pump_state_PT1T2 <;> simp [update_pump_counter, h]

@[simp] theorem update_PT1T2_runtime (s : AlgorithmState) :
    (update_pump_counter s Pump.PT1T2).pump_runtime_PT1T2 =
      if s.pump_state_PT1T2 then s.pump_runtime_PT1T2 + 1 else 0 := by
  by_cases h : s.pump_state_PT1T2 <;> simp [update_pump_counter, h]

@[simp] theorem update_PT1T2_offtime (s : AlgorithmState) :
    (update_pump_counter s Pump.PT1T2).pump_offtime_PT1T2 =
      if s.pump_state_PT1T2 then 0 else s.pump_offtime_PT1T2 + 1 := by
  by_cases h : s.pump_state_PT1T2 <;> simp [update_pump_counter, h]

@[simp] theorem update_PT1T2_state2 (s : AlgorithmState) :
    (update_pump_counter s Pump.PT1T2).pump_state_PT2T1 = s.pump_state_PT2T1 := by
  by_cases h : s.pump_state_PT1T2 <;> simp [update_pump_counter, h]

@[simp] theorem update_PT1T2_runtime2 (s : AlgorithmState) :
    (update_pump_counter s Pump.PT1T2).pump_runtime_PT2T1 = s.pump_runtime_PT2T1 := by
  by_cases h : s.pump_state_PT1T2 <;> simp [update_pump_counter, h]

@[simp] theorem update_PT1T2_offtime2 (s : AlgorithmState) :
    (update_pump_counter s Pump.PT1T2).pump_offtime_PT2T1 = s.pump_offtime_PT2T1 := by
  by_cases h : s.pump_state_PT1T2 <;> simp [update_pump_counter, h]

@[simp] theorem update_PT1T2_rule_one (s : AlgorithmState) :
    (update_pump_counter s Pump.PT1T2).rule_one_active = s.rule_one_active := by
  by_cases h : s.pump_state_PT1T2 <;> simp [update_pump_counter, h]

@[simp] theorem update_PT1T2_rule_two (s : AlgorithmState) :
    (update_pump_counter s Pump.PT1T2).rule_two_active = s.rule_two_active := by
  by_cases h : s.pump_state_PT1T2 <;> simp [update_pump_counter, h]

@[simp] theorem update_PT2T1_state (s : AlgorithmState) :
    (update_pump_counter s Pump.PT2T1).pump_state_PT2T1 = s.pump_state_PT2T1 := by
  by_cases h : s.pump_state_PT2T1 <;> simp [update_pump_counter, h]

@[simp] theorem update_PT2T1_runtime (s : AlgorithmState) :
    (update_pump_counter s Pump.PT2T1).pump_runtime_PT2T1 =
      if s.pump_state_PT2T1 then s.pump_runtime_PT2T1 + 1 else 0 := by
  by_cases h : s.pump_state_PT2T1 <;> simp [update_pump_counter, h]

@[simp] theorem update_PT2T1_offtime (s : AlgorithmState) :
    (update_pump_counter s Pump.PT2T1).pump_offtime_PT2T1 =
      if s.pump_state_PT2T1 then 0 else s.pump_offtime_PT2T1 + 1 := by
  by_cases h : s.pump_state_PT2T1 <;> simp [update_pump_counter, h]

@[simp] theorem update_PT2T1_state1 (s : AlgorithmState) :
    (update_pump_counter s Pump.PT2T1).pump_state_PT1T2 = s.pump_state_PT1T2 := by
  by_cases h : s.pump_state_PT2T1 <;> simp [update_pump_counter, h]

@[simp] theorem update_PT2T1_runtime1 (s : AlgorithmState) :
    (update_pump_counter s Pump.PT2T1).pump_runtime_PT1T2 = s.pump_runtime_PT1T2 := by
  by_cases h : s.pump_state_PT2T1 <;> simp [update_pump_counter, h]

@[simp] theorem update_PT2T1_offtime1 (s : AlgorithmState) :
    (update_pump_counter s Pump.PT2T1).pump_offtime_PT1T2 = s.pump_offtime_PT1T2 := by
  by_cases h : s.pump_state_PT2T1 <;> simp [update_pump_counter, h]

@[simp] theorem update_PT2T1_rule_one (s : AlgorithmState) :
    (update_pump_counter s Pump.PT2T1).rule_one_active = s.rule_one_active := by
  by_cases h : s.pump_state_PT2T1 <;> simp [update_pump_counter, h]

@[simp] theorem update_PT2T1_rule_two (s : AlgorithmState) :
    (update_pump_counter s Pump.PT2T1).rule_two_active = s.rule_two_active := by
  by_cases h : s.pump_state_PT2T1 <;> simp [update_pump_counter, h]

@[simp] theorem boiler_on_pre_PT1T2_state (s : AlgorithmState) :
    (boiler_on_pre s).pump_state_PT1T2 = s.pump_state_PT1T2 := by
  by_cases h : s.pump_state_PT2T1 <;> simp [boiler_on_pre, h]

@[simp] theorem boiler_on_pre_PT1T2_runtime (s : AlgorithmState) :
    (boiler_on_pre s).pump_runtime_PT1T2 = s.pump_runtime_PT1T2 := by
  by_cases h : s.pump_state_PT2T1 <;> simp [boiler_on_pre, h]

@[simp] theorem boiler_on_pre_PT1T2_offtime (s : AlgorithmState) :
    (boiler_on_pre s).pump_offtime_PT1T2 = s.pump_offtime_PT1T2 := by
  by_cases h : s.pump_state_PT2T1 <;> simp [boiler_on_pre, h]

@[simp] theorem boiler_on_pre_rule_one (s : AlgorithmState) :
    (boiler_on_pre s).rule_one_active = s.rule_one_active := by
  by_cases h : s.pump_state_PT2T1 <;> simp [boiler_on_pre, h]

@[simp] theorem boiler_on_pre_rule_two (s : AlgorithmState) :
    (boiler_on_pre s).rule_two_active = s.rule_two_active := by
  by_cases h : s.pump_state_PT2T1 <;> simp [boiler_on_pre, h]

@[simp] theorem boiler_on_pre_PT2T1_state (s : AlgorithmState) :
    (boiler_on_pre s).pump_state_PT2T1 = false := by
  cases h : s.pump_state_PT2T1 <;> simp [boiler_on_pre, h]

@[simp] theorem transfer_step_state1 (s : AlgorithmState) (t : TemperatureReadings)
    (st : PumpStatus) :
    (boiler_off_transfer_step s t st).pump_state_PT1T2 = s.pump_state_PT1T2 := by
  unfold boiler_off_transfer_step
  split <;> split <;> simp

@[simp] theorem transfer_step_runtime1 (s : AlgorithmState) (t : TemperatureReadings)
    (st : PumpStatus) :
    (boiler_off_transfer_step s t st).pump_runtime_PT1T2 = s.pump_runtime_PT1T2 := by
  unfold boiler_off_transfer_step
  split <;> split <;> simp

@[simp] theorem transfer_step_offtime1 (s : AlgorithmState) (t : TemperatureReadings)
    (st : PumpStatus) :
    (boiler_off_transfer_step s t st).pump_offtime_PT1T2 = s.pump_offtime_PT1T2 := by
  unfold boiler_off_transfer_step
  split <;> split <;> simp

@[simp] theorem transfer_step_rule_one (s : AlgorithmState) (t : TemperatureReadings)
    (st : PumpStatus) :
    (boiler_off_transfer_step s t st).rule_one_active = s.rule_one_active := by
  unfold boiler_off_transfer_step
  split <;> split <;> simp

@[simp] theorem transfer_step_rule_two (s : AlgorithmState) (t : TemperatureReadings)
    (st : PumpStatus) :
    (boiler_off_transfer_step s t st).rule_two_active = s.rule_two_active := by
  unfold boiler_off_transfer_step
  split <;> split <;> simp

/-- Helper: the commanded PT2T1 state after the start/stop block, in closed
form. -/
theorem transfer_step_state_eq (s : AlgorithmState) (t : TemperatureReadings)
    (st : PumpStatus) :
    (boiler_off_transfer_step s t st).pump_state_PT2T1 =
      if should_transfer_tank2_to_tank1 s t then
        (if !truthyBool st.PT2T1 && decide (s.pump_offtime_PT2T1 ≥ PUMP_MIN_OFF_TIME)
          then true else s.pump_state_PT2T1)
      else
        (if truthyBool st.PT2T1 && decide (s.pump_runtime_PT2T1 ≥ PUMP_MIN_ON_TIME)
          then false else s.pump_state_PT2T1) := by
  unfold boiler_off_transfer_step
  split <;> split <;> simp_all

/-- Helper: the start/stop block zeroes PT2T1's runtime exactly on a start
command and otherwise keeps it. -/
theorem transfer_step_runtime_eq (s : AlgorithmState) (t : TemperatureReadings)
    (st : PumpStatus) :
    (boiler_off_transfer_step s t st).pump_runtime_PT2T1 =
      if should_transfer_tank2_to_tank1 s t &&
          (!truthyBool st.PT2T1 && decide (s.pump_offtime_PT2T1 ≥ PUMP_MIN_OFF_TIME))
        then 0 else s.pump_runtime_PT2T1 := by
  unfold boiler_off_transfer_step
  cases h : should_transfer_tank2_to_tank1 s t <;>
    cases hp : truthyBool st.PT2T1 <;>
    by_cases hoff : 100 ≤ s.pump_offtime_PT2T1 <;>
    by_cases hrun : 200 ≤ s.pump_runtime_PT2T1 <;>
    simp [h, hp, hoff, hrun, PUMP_MIN_ON_TIME, PUMP_MIN_OFF_TIME]

/-- Helper: the start/stop block zeroes PT2T1's off-time exactly on a stop
command and otherwise keeps it. -/
theorem transfer_step_offtime_eq (s : AlgorithmState) (t : TemperatureReadings)
    (st : PumpStatus) :
    (boiler_off_transfer_step s t st).pump_offtime_PT2T1 =
      if !should_transfer_tank2_to_tank1 s t &&
          (truthyBool st.PT2T1 && decide (s.pump_runtime_PT2T1 ≥ PUMP_MIN_ON_TIME))
        then 0 else s.pump_offtime_PT2T1 := by
  unfold boiler_off_transfer_step
  cases h : should_transfer_tank2_to_tank1 s t <;>
    cases hp : truthyBool st.PT2T1 <;>
    by_cases hoff : 100 ≤ s.pump_offtime_PT2T1 <;>
    by_cases hrun : 200 ≤ s.pump_runtime_PT2T1 <;>
    simp [h, hp, hoff, hrun, PUMP_MIN_ON_TIME, PUMP_MIN_OFF_TIME]

@[simp] theorem safety_check_state1 (s : AlgorithmState) (t : TemperatureReadings)
    (st : PumpStatus) :
    (boiler_off_safety_check s t st).pump_state_PT1T2 = s.pump_state_PT1T2 := by
  unfold boiler_off_safety_check
  split
  · split
    · split <;> simp
    · rfl
  · rfl

@[simp] theorem safety_check_runtime1 (s : AlgorithmState) (t : TemperatureReadings)
    (st : PumpStatus) :
    (boiler_off_safety_check s t st).pump_runtime_PT1T2 = s.pump_runtime_PT1T2 := by
  unfold boiler_off_safety_check
  split
  · split
    · split <;> simp
    · rfl
  · rfl

@[simp] theorem safety_check_offtime1 (s : AlgorithmState) (t : TemperatureReadings)
    (st : PumpStatus) :
    (boiler_off_safety_check s t st).pump_offtime_PT1T2 = s.pump_offtime_PT1T2 := by
  unfold boiler_off_safety_check
  split
  · split
    · split <;> simp
    · rfl
  · rfl

@[simp] theorem safety_check_rule_one (s : AlgorithmState) (t : TemperatureReadings)
    (st : PumpStatus) :
    (boiler_off_safety_check s t st).rule_one_active = s.rule_one_active := by
  unfold boiler_off_safety_check
  split
  · split
    · split <;> simp
    · rfl
  · rfl

@[simp] theorem safety_check_rule_two (s : AlgorithmState) (t : TemperatureReadings)
    (st : PumpStatus) :
    (boiler_off_safety_check s t st).rule_two_active = s.rule_two_active := by
  unfold boiler_off_safety_check
  split
  · split
    · split <;> simp
    · rfl
  · rfl

@[simp] theorem safety_check_runtime2 (s : AlgorithmState) (t : TemperatureReadings)
    (st : PumpStatus) :
    (boiler_off_safety_check s t st).pump_runtime_PT2T1 = s.pump_runtime_PT2T1 := by
  unfold boiler_off_safety_check
  split
  · split
    · split <;> simp
    · rfl
  · rfl

/-- Helper: the safety check never starts the pump. -/
theorem safety_check_keep_off (s : AlgorithmState) (t : TemperatureReadings)
    (st : PumpStatus) (h : s.pump_state_PT2T1 = false) :
    (boiler_off_safety_check s t st).pump_state_PT2T1 = false := by
  unfold boiler_off_safety_check
  split
  · split
    · split <;> simp [h]
    · exact h
  · exact h

/-- Helper: the safety check stops the pump only after the minimum on-time. -/
theorem safety_check_turn_off (s : AlgorithmState) (t : TemperatureReadings)
    (st : PumpStatus) (hon : s.pump_state_PT2T1 = true)
    (hoff : (boiler_off_safety_check s t st).pump_state_PT2T1 = false) :
    PUMP_MIN_ON_TIME ≤ s.pump_runtime_PT2T1 := by
  unfold boiler_off_safety_check at hoff
  revert hoff
  split
  · split
    · split
      · rename_i hcond
        intro _
        simp only [Bool.and_eq_true, decide_eq_true_eq] at hcond
        exact hcond.2
      · intro hoff
        rw [hon] at hoff
        cases hoff
    · intro hoff
      rw [hon] at hoff
      cases hoff
  · intro hoff
    rw [hon] at hoff
    cases hoff

/-- Helper: the safety check does nothing when T1BOT does not exceed T3TOP by
the 2 °C margin (or either reading is absent). -/
theorem safety_check_id_of_cool (s : AlgorithmState) (t : TemperatureReadings)
    (st : PumpStatus)
    (h : ∀ b tp, t.T1BOT = some b → t.T3TOP = some tp → b - tp < 200) :
    boiler_off_safety_check s t st = s := by
  unfold boiler_off_safety_check
  split
  · rename_i b tp hb htp
    have := h b tp hb htp
    rw [if_neg (by omega)]
  · rfl

/-- Helper: the commanded PT1T2 state after Rule One, in closed form. -/
theorem apply_rule_one_state_eq (s : AlgorithmState) (t : TemperatureReadings)
    (st : PumpStatus) :
    (apply_rule_one s t st).pump_state_PT1T2 =
      if emergency_condition t then
        (if truthyBool st.PT1T2 then s.pump_state_PT1T2 else true)
      else if s.rule_one_active &&
          (conditions_cleared t && decide (s.pump_runtime_PT1T2 ≥ PUMP_MIN_ON_TIME)) then
        false
      else s.pump_state_PT1T2 := by
  cases he : emergency_condition t <;> cases hp : truthyBool st.PT1T2 <;>
    cases ha : s.rule_one_active <;> cases hcc : conditions_cleared t <;>
    by_cases hle : PUMP_MIN_ON_TIME ≤ s.pump_runtime_PT1T2 <;>
    simp [apply_rule_one, he, hp, ha, hcc, hle]

/-- Helper: Rule One never changes the Rule Two flag. -/
theorem apply_rule_one_rule_two (s : AlgorithmState) (t : TemperatureReadings)
    (st : PumpStatus) :
    (apply_rule_two s t st).rule_one_active = s.rule_one_active ∧
    (apply_rule_one s t st).rule_two_active = s.rule_two_active := by
  constructor
  · cases h1 : rule_two_pump_start t <;> cases hp : truthyBool st.PT1T2 <;>
      cases h2 : rule_two_pump_stop t <;>
      by_cases hoff : 100 ≤ s.pump_offtime_PT1T2 <;>
      by_cases hrun : 200 ≤ s.pump_runtime_PT1T2 <;>
      cases hs : s.pump_state_PT1T2 <;> cases ha : s.rule_one_active <;>
      simp [apply_rule_two, h1, hp, h2, hoff, hrun, hs, ha, PUMP_MIN_ON_TIME,
        PUMP_MIN_OFF_TIME]
  · cases he : emergency_condition t <;> cases hp : truthyBool st.PT1T2 <;>
      cases ha : s.rule_one_active <;> cases hcc : conditions_cleared t <;>
      by_cases hle : PUMP_MIN_ON_TIME ≤ s.pump_runtime_PT1T2 <;>
      simp [apply_rule_one, he, hp, ha, hcc, hle]

/-- Helper: Rule One leaves every PT2T1 field untouched. -/
theorem apply_rule_one_PT2T1 (s : AlgorithmState) (t : TemperatureReadings)
    (st : PumpStatus) :
    (apply_rule_one s t st).pump_state_PT2T1 = s.pump_state_PT2T1 ∧
    (apply_rule_one s t st).pump_runtime_PT2T1 = s.pump_runtime_PT2T1 ∧
    (apply_rule_one s t st).pump_offtime_PT2T1 = s.pump_offtime_PT2T1 := by
  cases he : emergency_condition t <;> cases hp : truthyBool st.PT1T2 <;>
    cases ha : s.rule_one_active <;> cases hcc : conditions_cleared t <;>
    by_cases hle : PUMP_MIN_ON_TIME ≤ s.pump_runtime_PT1T2 <;>
    simp [apply_rule_one, he, hp, ha, hcc, hle]

/-- Helper: Rule One increments PT1T2's off-time by at most one cycle. -/
theorem apply_rule_one_offtime_le (s : AlgorithmState) (t : TemperatureReadings)
    (st : PumpStatus) :
    (apply_rule_one s t st).pump_offtime_PT1T2 ≤ s.pump_offtime_PT1T2 + 1 := by
  cases he : emergency_condition t <;> cases hp : truthyBool st.PT1T2 <;>
    cases ha : s.rule_one_active <;> cases hcc : conditions_cleared t <;>
    by_cases hle : PUMP_MIN_ON_TIME ≤ s.pump_runtime_PT1T2 <;>
    cases hs : s.pump_state_PT1T2 <;>
    simp [apply_rule_one, he, hp, ha, hcc, hle, hs]

/-- Helper: Rule One increments PT1T2's runtime by at most one cycle. -/
theorem apply_rule_one_runtime_le (s : AlgorithmState) (t : TemperatureReadings)
    (st : PumpStatus) :
    (apply_rule_one s t st).pump_runtime_PT1T2 ≤ s.pump_runtime_PT1T2 + 1 := by
  cases he : emergency_condition t <;> cases hp : truthyBool st.PT1T2 <;>
    cases ha : s.rule_one_active <;> cases hcc : conditions_cleared t <;>
    by_cases hle : PUMP_MIN_ON_TIME ≤ s.pump_runtime_PT1T2 <;>
    cases hs : s.pump_state_PT1T2 <;>
    simp [apply_rule_one, he, hp, ha, hcc, hle, hs]

/-- Helper: with no emergency and the Rule One flag clear, Rule One only
performs the counter update. -/
theorem apply_rule_one_idle (s : AlgorithmState) (t : TemperatureReadings)
    (st : PumpStatus) (he : emergency_condition t = false)
    (ha : s.rule_one_active = false) :
    apply_rule_one s t st = update_pump_counter s Pump.PT1T2 := by
  simp [apply_rule_one, he, ha]

/-- Helper: the commanded PT1T2 state after Rule Two, in closed form. -/
theorem apply_rule_two_state_eq (s : AlgorithmState) (t : TemperatureReadings)
    (st : PumpStatus) :
    (apply_rule_two s t st).pump_state_PT1T2 =
      if rule_two_pump_start t && !truthyBool st.PT1T2 &&
          decide (s.pump_offtime_PT1T2 ≥ PUMP_MIN_OFF_TIME) then true
      else if rule_two_pump_stop t && truthyBool st.PT1T2 &&
          decide (s.pump_runtime_PT1T2 ≥ PUMP_MIN_ON_TIME) then false
      else s.pump_state_PT1T2 := by
  cases h1 : rule_two_pump_start t <;> cases hp : truthyBool st.PT1T2 <;>
    cases h2 : rule_two_pump_stop t <;>
    by_cases hoff : 100 ≤ s.pump_offtime_PT1T2 <;>
    by_cases hrun : 200 ≤ s.pump_runtime_PT1T2 <;>
    cases hs : s.pump_state_PT1T2 <;> cases ha : s.rule_one_active <;>
    simp [apply_rule_two, h1, hp, h2, hoff, hrun, hs, ha, PUMP_MIN_ON_TIME,
      PUMP_MIN_OFF_TIME]

/-- Helper: Rule Two leaves every PT2T1 field untouched. -/
theorem apply_rule_two_PT2T1 (s : AlgorithmState) (t : TemperatureReadings)
    (st : PumpStatus) :
    (apply_rule_two s t st).pump_state_PT2T1 = s.pump_state_PT2T1 ∧
    (apply_rule_two s t st).pump_runtime_PT2T1 = s.pump_runtime_PT2T1 ∧
    (apply_rule_two s t st).pump_offtime_PT2T1 = s.pump_offtime_PT2T1 := by
  cases h1 : rule_two_pump_start t <;> cases hp : truthyBool st.PT1T2 <;>
    cases h2 : rule_two_pump_stop t <;>
    by_cases hoff : 100 ≤ s.pump_offtime_PT1T2 <;>
    by_cases hrun : 200 ≤ s.pump_runtime_PT1T2 <;>
    cases hs : s.pump_state_PT1T2 <;> cases ha : s.rule_one_active <;>
    simp [apply_rule_two, h1, hp, h2, hoff, hrun, hs, ha, PUMP_MIN_ON_TIME,
      PUMP_MIN_OFF_TIME]

/-- Helper: the scaled-energy decision reads only the PT2T1 commanded state
from the controller state. -/
theorem should_transfer_state_eq (s s' : AlgorithmState) (t : TemperatureReadings)
    (h : s.pump_state_PT2T1 = s'.pump_state_PT2T1) :
    should_transfer_tank2_to_tank1 s t = should_transfer_tank2_to_tank1 s' t := by
  unfold should_transfer_tank2_to_tank1
  simp only [h]

@[simp] theorem should_transfer_set_PT1T2 (s : AlgorithmState)
    (t : TemperatureReadings) (b : Bool) :
    should_transfer_tank2_to_tank1 (set_transfer_pump s Pump.PT1T2 b) t =
      should_transfer_tank2_to_tank1 s t :=
  should_transfer_state_eq _ _ _ (by simp)

@[simp] theorem should_transfer_reset_flags (s : AlgorithmState)
    (t : TemperatureReadings) :
    should_transfer_tank2_to_tank1
      { s with rule_one_active := false, rule_two_active := false } t =
      should_transfer_tank2_to_tank1 s t :=
  should_transfer_state_eq _ _ _ rfl

/-- Helper: the scaled-energy decision is false as soon as one of the six
tank readings is absent. -/
theorem should_transfer_of_missing (s : AlgorithmState) (t : TemperatureReadings)
    (h : t.T1TOP = none ∨ t.T1MID = none ∨ t.T1BOT = none ∨
         t.T2TOP = none ∨ t.T2MID = none ∨ t.T2BOT = none) :
    should_transfer_tank2_to_tank1 s t = false := by
  unfold should_transfer_tank2_to_tank1
  rcases h with h | h | h | h | h | h <;> rw [h] <;>
    cases t.T1TOP <;> cases t.T1MID <;> cases t.T1BOT <;>
    cases t.T2TOP <;> cases t.T2MID <;> cases t.T2BOT <;> simp_all

/-- Helper: with the pump commanded on and all six readings present, the
scaled-energy decision compares the difference against `ENERGY_DIFF_STOP`. -/
theorem should_transfer_on_eq (s : AlgorithmState) (t : TemperatureReadings)
    (a1 b1 c1 a2 b2 c2 : Int) (hon : s.pump_state_PT2T1 = true)
    (h1 : t.T1TOP = some a1) (h2 : t.T1MID = some b1) (h3 : t.T1BOT = some c1)
    (h4 : t.T2TOP = some a2) (h5 : t.T2MID = some b2) (h6 : t.T2BOT = some c2) :
    should_transfer_tank2_to_tank1 s t =
      decide (scaled_diff_T2_T1 a1 b1 c1 a2 b2 c2 > ENERGY_DIFF_STOP) := by
  unfold should_transfer_tank2_to_tank1
  rw [h1, h2, h3, h4, h5, h6, hon]
  simp

/-- Helper: any of the three present-and-over-threshold cases makes the
emergency condition of Rule One true. -/
theorem emergency_condition_of_cases (t : TemperatureReadings)
    (h : (∃ v, t.TBTOP = some v ∧ v > BOILER_OVERHEAT_THRESHOLD) ∨
         (∃ v, t.T1BOT = some v ∧ v > CRITICAL_TANK_TEMP) ∨
         (∃ v, t.TRET = some v ∧ v > RETURNS_TEMP_ON_THRESHOLD)) :
    emergency_condition t = true := by
  rcases h with ⟨v, hv, hgt⟩ | ⟨v, hv, hgt⟩ | ⟨v, hv, hgt⟩ <;>
    simp only [BOILER_OVERHEAT_THRESHOLD, CRITICAL_TANK_TEMP,
      RETURNS_TEMP_ON_THRESHOLD] at hgt <;>
    simp [emergency_condition, hv, truthyInt, BOILER_OVERHEAT_THRESHOLD,
      CRITICAL_TANK_TEMP, RETURNS_TEMP_ON_THRESHOLD] <;>
    omega

/-- Helper: under the emergency condition, Rule One leaves the flag set and
the commanded state of PT1T2 on, provided the observed status mirrors the
commanded state. -/
theorem apply_rule_one_emergency (s : AlgorithmState) (t : TemperatureReadings)
    (st : PumpStatus) (he : emergency_condition t = true)
    (hmirror : truthyBool st.PT1T2 = s.pump_state_PT1T2) :
    (apply_rule_one s t st).rule_one_active = true ∧
    (apply_rule_one s t st).pump_state_PT1T2 = true := by
  cases hpt : truthyBool st.PT1T2 with
  | false => simp [apply_rule_one, he, hpt]
  | true =>
      rw [hpt] at hmirror
      simp [apply_rule_one, he, hpt, ← hmirror]

/-- C1: for every snapshot where Rule E's ON condition holds (TBTOP above
8700, or T1BOT above `CRITICAL_TANK_TEMP`, or TRET above 6000, the triggering
field present) and the boiler pump is on, the cycle's resulting commanded
state for PT1T2 is on, for all values of the dwell counters — in particular
even when `pump_offtime_PT1T2` is below `PUMP_MIN_OFF_TIME`. -/
theorem c1_emergency_forces_PT1T2_on (s : AlgorithmState)
    (t : TemperatureReadings) (st : PumpStatus)
    (hBP : truthyBool st.BP = true)
    (hmirror : truthyBool st.PT1T2 = s.pump_state_PT1T2)
    (hE : (∃ v, t.TBTOP = some v ∧ v > BOILER_OVERHEAT_THRESHOLD) ∨
          (∃ v, t.T1BOT = some v ∧ v > CRITICAL_TANK_TEMP) ∨
          (∃ v, t.TRET = some v ∧ v > RETURNS_TEMP_ON_THRESHOLD)) :
    (execute_algorithm s t st).pump_state_PT1T2 = true := by
  have he := emergency_condition_of_cases t hE
  have hmirror1 : truthyBool st.PT1T2 = (boiler_on_pre s).pump_state_PT1T2 := by
    simpa using hmirror
  obtain ⟨hact, hstate⟩ := apply_rule_one_emergency (boiler_on_pre s) t st he hmirror1
  simp [execute_algorithm, hBP, boiler_on_algorithm, hact, hstate]

/-- Witness for C1: a concrete overheating snapshot with the off-time counter
at zero still commands PT1T2 on. -/
theorem c1_emergency_forces_PT1T2_on_witness :
    (execute_algorithm fresh_state overheat_temp bp_on_status).pump_state_PT1T2 = true :=
  c1_emergency_forces_PT1T2_on fresh_state overheat_temp bp_on_status
    (by decide) (by decide)
    (Or.inl ⟨8800, by decide, by decide⟩)

/-- C7: the scaled energy difference, written exactly as the code computes it
(`energy_source / volume_source * volume_target - energy_target`), is zero
whenever the two tanks have the same average temperature, for every pair of
(nonzero source) tank volumes. -/
theorem c7_scaled_energy_diff_zero_of_equal_avg
    (volume_source volume_target avg : ℚ) (hvs : volume_source ≠ 0) :
    scaled_energy_diff volume_source volume_target avg avg = 0 := by
  simp only [scaled_energy_diff]
  field_simp
  ring

/-- Witness for C7: Tank2 (750 L) scaled against Tank1 (500 L) at a common
average of 70 °C gives difference zero. -/
theorem c7_scaled_energy_diff_zero_witness :
    scaled_energy_diff 750 500 70 70 = 0 :=
  c7_scaled_energy_diff_zero_of_equal_avg 750 500 70 (by norm_num)

/-- C8: in every boiler-on cycle where Rule One (Rule E) is active at the end
of its evaluation, Rule Two (Rule N) is not evaluated: the whole cycle result
equals the state produced by Rule One alone. -/
theorem c8_rule_one_suppresses_rule_two (s : AlgorithmState)
    (t : TemperatureReadings) (st : PumpStatus)
    (hBP : truthyBool st.BP = true)
    (hact : (apply_rule_one (boiler_on_pre s) t st).rule_one_active = true) :
    execute_algorithm s t st =
      { apply_rule_one (boiler_on_pre s) t st with boiler_off_active := false } := by
  simp [execute_algorithm, hBP, boiler_on_algorithm, hact]

/-- Witness for C8: the concrete overheating cycle is decided by Rule One
alone. -/
theorem c8_rule_one_suppresses_rule_two_witness :
    execute_algorithm fresh_state overheat_temp bp_on_status =
      { apply_rule_one (boiler_on_pre fresh_state) overheat_temp bp_on_status with
          boiler_off_active := false } :=
  c8_rule_one_suppresses_rule_two fresh_state overheat_temp bp_on_status
    (by decide) (by decide)

/-- Helper: dispatch of the cycle for an observed boiler-on status. -/
theorem execute_bp_on (s : AlgorithmState) (t : TemperatureReadings)
    (st : PumpStatus) (h : truthyBool st.BP = true) :
    execute_algorithm s t st =
      { boiler_on_algorithm s t st with boiler_off_active := false } := by
  simp [execute_algorithm, h]

/-- Helper: dispatch of the cycle for an observed boiler-off status. -/
theorem execute_bp_off (s : AlgorithmState) (t : TemperatureReadings)
    (st : PumpStatus) (h : truthyBool st.BP = false) :
    execute_algorithm s t st =
      { boiler_off_algorithm s t st with boiler_off_active := true } := by
  simp [execute_algorithm, h]

/-- Helper: a boiler-on cycle only turns PT1T2 off after the minimum on-time
(counted through the cycle's own counter update). -/
theorem boiler_on_turn_off_runtime (s : AlgorithmState) (t : TemperatureReadings)
    (st : PumpStatus) (hon : s.pump_state_PT1T2 = true)
    (hoff : (boiler_on_algorithm s t st).pump_state_PT1T2 = false) :
    PUMP_MIN_ON_TIME ≤ s.pump_runtime_PT1T2 + 1 := by
  have hrle := apply_rule_one_runtime_le (boiler_on_pre s) t st
  rw [boiler_on_pre_PT1T2_runtime] at hrle
  have hstate := apply_rule_one_state_eq (boiler_on_pre s) t st
  rw [boiler_on_pre_PT1T2_state, boiler_on_pre_PT1T2_runtime, boiler_on_pre_rule_one,
    hon] at hstate
  cases hact : (apply_rule_one (boiler_on_pre s) t st).rule_one_active
  · simp only [boiler_on_algorithm, hact, Bool.not_false, if_true] at hoff
    rw [apply_rule_two_state_eq] at hoff
    revert hoff
    split
    · intro h
      cases h
    · split
      · rename_i hc1 hc2
        intro _
        simp only [Bool.and_eq_true, decide_eq_true_eq] at hc2
        omega
      · intro hsf
        rw [hsf] at hstate
        revert hstate
        split
        · split <;> intro h <;> cases h
        · split
          · rename_i hcond
            intro _
            simp only [Bool.and_eq_true, decide_eq_true_eq] at hcond
            omega
          · intro h
            cases h
  · simp only [boiler_on_algorithm, hact, Bool.not_true, Bool.false_eq_true,
      if_false] at hoff
    rw [hoff] at hstate
    revert hstate
    split
    · split <;> intro h <;> cases h
    · split
      · rename_i hcond
        intro _
        simp only [Bool.and_eq_true, decide_eq_true_eq] at hcond
        omega
      · intro h
        cases h

/-- Helper: a boiler-on cycle only turns PT1T2 on through the emergency rule
or after the minimum off-time (counted through the cycle's own counter
update). -/
theorem boiler_on_turn_on_floor (s : AlgorithmState) (t : TemperatureReadings)
    (st : PumpStatus) (h0 : s.pump_state_PT1T2 = false)
    (hon : (boiler_on_algorithm s t st).pump_state_PT1T2 = true) :
    emergency_condition t = true ∨
      (rule_two_pump_start t = true ∧ PUMP_MIN_OFF_TIME ≤ s.pump_offtime_PT1T2 + 1) := by
  cases he : emergency_condition t
  · have hole := apply_rule_one_offtime_le (boiler_on_pre s) t st
    rw [boiler_on_pre_PT1T2_offtime] at hole
    have hstate := apply_rule_one_state_eq (boiler_on_pre s) t st
    rw [boiler_on_pre_PT1T2_state, boiler_on_pre_PT1T2_runtime, boiler_on_pre_rule_one,
      h0, he] at hstate
    have hsf : (apply_rule_one (boiler_on_pre s) t st).pump_state_PT1T2 = false := by
      rw [hstate]
      simp only [Bool.false_eq_true, if_false]
      split <;> rfl
    cases hact : (apply_rule_one (boiler_on_pre s) t st).rule_one_active
    · simp only [boiler_on_algorithm, hact, Bool.not_false, if_true] at hon
      rw [apply_rule_two_state_eq] at hon
      revert hon
      split
      · rename_i hc1
        intro _
        simp only [Bool.and_eq_true, Bool.not_eq_true', decide_eq_true_eq] at hc1
        right
        exact ⟨hc1.1.1, by omega⟩
      · split
        · intro h
          cases h
        · rw [hsf]
          intro h
          cases h
    · simp only [boiler_on_algorithm, hact, Bool.not_true, Bool.false_eq_true,
        if_false] at hon
      rw [hsf] at hon
      cases hon
  · exact Or.inl rfl

/-- Helper: a boiler-off cycle only turns PT2T1 on after the minimum
off-time. -/
theorem boiler_off_turn_on_floor (s : AlgorithmState) (t : TemperatureReadings)
    (st : PumpStatus) (h0 : s.pump_state_PT2T1 = false)
    (hon : (boiler_off_algorithm s t st).pump_state_PT2T1 = true) :
    should_transfer_tank2_to_tank1 s t = true ∧
      PUMP_MIN_OFF_TIME ≤ s.pump_offtime_PT2T1 := by
  unfold boiler_off_algorithm at hon
  simp only [AlgorithmState.pump_state_PT2T1] at hon
  set s2 := set_transfer_pump
    { s with rule_one_active := false, rule_two_active := false } Pump.PT1T2 false with hs2
  set s3 := boiler_off_transfer_step s2 t st with hs3
  set s4 := update_pump_counter s3 Pump.PT2T1 with hs4
  have hstep : s3.pump_state_PT2T1 = true := by
    by_contra hc
    have hcf : s3.pump_state_PT2T1 = false := by
      cases h : s3.pump_state_PT2T1
      · rfl
      · exact absurd h hc
    have h4 : s4.pump_state_PT2T1 = false := by
      rw [hs4, update_PT2T1_state, hcf]
    have := safety_check_keep_off s4 t st h4
    rw [this] at hon
    cases hon
  rw [hs3, transfer_step_state_eq] at hstep
  have hs2state : s2.pump_state_PT2T1 = false := by
    rw [hs2]
    simp [h0]
  have hs2eq : should_transfer_tank2_to_tank1 s2 t = should_transfer_tank2_to_tank1 s t :=
    should_transfer_state_eq s2 s t (by rw [hs2]; simp)
  revert hstep
  split
  · split
    · rename_i hsh hcond
      intro _
      simp only [Bool.and_eq_true, Bool.not_eq_true', decide_eq_true_eq] at hcond
      have : s2.pump_offtime_PT2T1 = s.pump_offtime_PT2T1 := by rw [hs2]; simp
      rw [hs2eq] at hsh
      exact ⟨hsh, by omega⟩
    · rw [hs2state]
      intro h
      cases h
  · split
    · intro h
      cases h
    · rw [hs2state]
      intro h
      cases h

/-- Helper: a boiler-off cycle only turns PT2T1 off after the minimum on-time
(counted through the cycle's own counter update). -/
theorem boiler_off_turn_off_floor (s : AlgorithmState) (t : TemperatureReadings)
    (st : PumpStatus) (h0 : s.pump_state_PT2T1 = true)
    (hoff : (boiler_off_algorithm s t st).pump_state_PT2T1 = false) :
    PUMP_MIN_ON_TIME ≤ s.pump_runtime_PT2T1 + 1 := by
  unfold boiler_off_algorithm at hoff
  simp only [AlgorithmState.pump_state_PT2T1] at hoff
  set s2 := set_transfer_pump
    { s with rule_one_active := false, rule_two_active := false } Pump.PT1T2 false with hs2
  set s3 := boiler_off_transfer_step s2 t st with hs3
  set s4 := update_pump_counter s3 Pump.PT2T1 with hs4
  have hs2state : s2.pump_state_PT2T1 = true := by rw [hs2]; simp [h0]
  have hs2run : s2.pump_runtime_PT2T1 = s.pump_runtime_PT2T1 := by rw [hs2]; simp
  cases hstep : s3.pump_state_PT2T1
  · have := transfer_step_state_eq s2 t st
    rw [← hs3, hstep] at this
    revert this
    split
    · split
      · intro h
        cases h
      · rw [hs2state]
        intro h
        cases h
    · split
      · rename_i hcond
        intro _
        simp only [Bool.and_eq_true, decide_eq_true_eq] at hcond
        omega
      · rw [hs2state]
        intro h
        cases h
  · have h4state : s4.pump_state_PT2T1 = true := by rw [hs4, update_PT2T1_state, hstep]
    have h4run : s4.pump_runtime_PT2T1 = s3.pump_runtime_PT2T1 + 1 := by
      rw [hs4, update_PT2T1_runtime, hstep]
      simp
    have hfloor := safety_check_turn_off s4 t st h4state hoff
    have h3run := transfer_step_runtime_eq s2 t st
    rw [← hs3] at h3run
    rw [h4run, h3run] at hfloor
    revert hfloor
    split
    · intro h
      simp only [PUMP_MIN_ON_TIME] at h
      omega
    · rw [hs2run]
      intro h
      exact h

/-- Helper: every boiler-off cycle forces PT1T2 off, zeroes its off-time,
preserves its runtime and clears both rule flags. -/
theorem boiler_off_PT1T2_fields (s : AlgorithmState) (t : TemperatureReadings)
    (st : PumpStatus) :
    (boiler_off_algorithm s t st).pump_state_PT1T2 = false ∧
    (boiler_off_algorithm s t st).pump_runtime_PT1T2 = s.pump_runtime_PT1T2 ∧
    (boiler_off_algorithm s t st).pump_offtime_PT1T2 = 0 ∧
    (boiler_off_algorithm s t st).rule_one_active = false ∧
    (boiler_off_algorithm s t st).rule_two_active = false := by
  simp [boiler_off_algorithm]

/-- Helper: every boiler-on cycle leaves PT2T1 commanded off. -/
theorem boiler_on_PT2T1_off (s : AlgorithmState) (t : TemperatureReadings)
    (st : PumpStatus) :
    (boiler_on_algorithm s t st).pump_state_PT2T1 = false := by
  have h1 := (apply_rule_one_PT2T1 (boiler_on_pre s) t st).1
  have h2 := (apply_rule_two_PT2T1 (apply_rule_one (boiler_on_pre s) t st) t st).1
  unfold boiler_on_algorithm
  cases hact : (apply_rule_one (boiler_on_pre s) t st).rule_one_active <;>
    simp [hact, h1, h2]

/-- C2 counterexample: with the boiler off, a PT1T2 pump that has just been
commanded on (runtime 0, far below `PUMP_MIN_ON_TIME`) is commanded off in
the same cycle, and not by the emergency-on bypass: the claimed on-time floor
for turn-off commands does not hold. -/
theorem c2_counterexample :
    c2_state.pump_state_PT1T2 = true ∧
    c2_state.pump_runtime_PT1T2 < PUMP_MIN_ON_TIME ∧
    (execute_algorithm c2_state c5_temp c2_status).pump_state_PT1T2 = false := by
  decide

/-- C2 amended: every commanded transition respects the dwell floors counted
through the cycle's own counter update — PT1T2 turns off in boiler-on mode
only at `runtime + 1 ≥ PUMP_MIN_ON_TIME`, turns on only through the emergency
bypass or at `offtime + 1 ≥ PUMP_MIN_OFF_TIME`; PT2T1 turns on only in
boiler-off mode at `offtime ≥ PUMP_MIN_OFF_TIME` and turns off in boiler-off
mode only at `runtime + 1 ≥ PUMP_MIN_ON_TIME` — except for the two
unconditional mode forced-offs: PT1T2 is commanded off in every boiler-off
cycle and PT2T1 in every boiler-on cycle, regardless of their runtime. -/
theorem c2_dwell_floors_except_forced_off (s : AlgorithmState)
    (t : TemperatureReadings) (st : PumpStatus) :
    (truthyBool st.BP = true → s.pump_state_PT1T2 = true →
       (execute_algorithm s t st).pump_state_PT1T2 = false →
       PUMP_MIN_ON_TIME ≤ s.pump_runtime_PT1T2 + 1) ∧
    (s.pump_state_PT1T2 = false →
       (execute_algorithm s t st).pump_state_PT1T2 = true →
       emergency_condition t = true ∨ PUMP_MIN_OFF_TIME ≤ s.pump_offtime_PT1T2 + 1) ∧
    (s.pump_state_PT2T1 = false →
       (execute_algorithm s t st).pump_state_PT2T1 = true →
       truthyBool st.BP = false ∧ PUMP_MIN_OFF_TIME ≤ s.pump_offtime_PT2T1) ∧
    (truthyBool st.BP = false → s.pump_state_PT2T1 = true →
       (execute_algorithm s t st).pump_state_PT2T1 = false →
       PUMP_MIN_ON_TIME ≤ s.pump_runtime_PT2T1 + 1) ∧
    (truthyBool st.BP = false → (execute_algorithm s t st).pump_state_PT1T2 = false) ∧
    (truthyBool st.BP = true → (execute_algorithm s t st).pump_state_PT2T1 = false) := by
  refine ⟨?_, ?_, ?_, ?_, ?_, ?_⟩
  · intro hbp hon hoff
    rw [execute_bp_on s t st hbp] at hoff
    exact boiler_on_turn_off_runtime s t st hon hoff
  · intro h0 hon
    cases hbp : truthyBool st.BP
    · rw [execute_bp_off s t st hbp] at hon
      have := (boiler_off_PT1T2_fields s t st).1
      rw [show ({ boiler_off_algorithm s t st with
            boiler_off_active := true } : AlgorithmState).pump_state_PT1T2 =
          (boiler_off_algorithm s t st).pump_state_PT1T2 from rfl, this] at hon
      cases hon
    · rw [execute_bp_on s t st hbp] at hon
      rcases boiler_on_turn_on_floor s t st h0 hon with h | h
      · exact Or.inl h
      · exact Or.inr h.2
  · intro h0 hon
    cases hbp : truthyBool st.BP
    · rw [execute_bp_off s t st hbp] at hon
      exact ⟨rfl, (boiler_off_turn_on_floor s t st h0 hon).2⟩
    · rw [execute_bp_on s t st hbp] at hon
      have := boiler_on_PT2T1_off s t st
      rw [show ({ boiler_on_algorithm s t st with
            boiler_off_active := false } : AlgorithmState).pump_state_PT2T1 =
          (boiler_on_algorithm s t st).pump_state_PT2T1 from rfl, this] at hon
      cases hon
  · intro hbp hon hoff
    rw [execute_bp_off s t st hbp] at hoff
    exact boiler_off_turn_off_floor s t st hon hoff
  · intro hbp
    rw [execute_bp_off s t st hbp]
    exact (boiler_off_PT1T2_fields s t st).1
  · intro hbp
    rw [execute_bp_on s t st hbp]
    exact boiler_on_PT2T1_off s t st

/-- Witness for the amended C2: at a concrete boiler-off cycle, PT1T2 is
commanded off. -/
theorem c2_dwell_floors_witness :
    (execute_algorithm c2_state c5_temp c2_status).pump_state_PT1T2 = false :=
  (c2_dwell_floors_except_forced_off c2_state c5_temp c2_status).2.2.2.2.1 (by decide)

/-- C3 counterexample: a boiler-on cycle in which Rule Two's start and stop
conditions both hold, the pump is currently on and past its minimum on-time:
the stop branch fires and PT1T2 is commanded off — the start condition does
not win. -/
theorem c3_counterexample :
    rule_two_pump_start c3_temp = true ∧
    rule_two_pump_stop c3_temp = true ∧
    emergency_condition c3_temp = false ∧
    c3_state.pump_state_PT1T2 = true ∧
    (execute_algorithm c3_state c3_temp c3_status).pump_state_PT1T2 = false := by
  decide

/-- C3 amended: when Rule Two's start and stop conditions are both true in
the same boiler-on cycle (no emergency), the start condition wins only if the
pump is currently off (it is then commanded on, once past the off-time
floor); if the pump is currently on, the stop branch fires and the pump is
commanded off once past the on-time floor. -/
theorem c3_start_wins_only_when_off (s : AlgorithmState)
    (t : TemperatureReadings) (st : PumpStatus)
    (hmirror : truthyBool st.PT1T2 = s.pump_state_PT1T2)
    (hbp : truthyBool st.BP = true)
    (he : emergency_condition t = false)
    (ha : s.rule_one_active = false)
    (hstart : rule_two_pump_start t = true)
    (hstop : rule_two_pump_stop t = true) :
    (s.pump_state_PT1T2 = false → PUMP_MIN_OFF_TIME ≤ s.pump_offtime_PT1T2 + 1 →
       (execute_algorithm s t st).pump_state_PT1T2 = true) ∧
    (s.pump_state_PT1T2 = true → PUMP_MIN_ON_TIME ≤ s.pump_runtime_PT1T2 + 1 →
       (execute_algorithm s t st).pump_state_PT1T2 = false) := by
  have hpre : (boiler_on_pre s).rule_one_active = false := by
    rw [boiler_on_pre_rule_one, ha]
  have hidle := apply_rule_one_idle (boiler_on_pre s) t st he hpre
  have hflag : (apply_rule_one (boiler_on_pre s) t st).rule_one_active = false := by
    rw [hidle, update_PT1T2_rule_one, boiler_on_pre_rule_one, ha]
  constructor
  · intro hs hofff
    have htr : truthyBool st.PT1T2 = false := by rw [hmirror, hs]
    rw [execute_bp_on s t st hbp]
    show (boiler_on_algorithm s t st).pump_state_PT1T2 = true
    simp only [boiler_on_algorithm, hflag, Bool.not_false, if_true]
    rw [apply_rule_two_state_eq]
    have ha_off : (apply_rule_one (boiler_on_pre s) t st).pump_offtime_PT1T2 =
        s.pump_offtime_PT1T2 + 1 := by
      rw [hidle, update_PT1T2_offtime, boiler_on_pre_PT1T2_state, hs]
      simp
    simp [hstart, htr, ha_off, hofff]
  · intro hs hrunf
    have htr : truthyBool st.PT1T2 = true := by rw [hmirror, hs]
    rw [execute_bp_on s t st hbp]
    show (boiler_on_algorithm s t st).pump_state_PT1T2 = false
    simp only [boiler_on_algorithm, hflag, Bool.not_false, if_true]
    rw [apply_rule_two_state_eq]
    have ha_run : (apply_rule_one (boiler_on_pre s) t st).pump_runtime_PT1T2 =
        s.pump_runtime_PT1T2 + 1 := by
      rw [hidle, update_PT1T2_runtime, boiler_on_pre_PT1T2_state, hs]
      simp
    simp [hstop, htr, ha_run, hrunf]

/-- Witness for the amended C3: at a concrete both-conditions-true cycle with
the pump off and its off-time floor met, PT1T2 is commanded on. -/
theorem c3_start_wins_witness :
    (execute_algorithm c3_state_off c3_temp bp_on_status).pump_state_PT1T2 = true :=
  (c3_start_wins_only_when_off c3_state_off c3_temp bp_on_status
    (by decide) (by decide) (by decide) (by decide) (by decide) (by decide)).1
    (by decide) (by decide)

/-- C9 counterexample: a boiler-off cycle zeroes PT1T2's accumulated off-time
(50 cycles here) through the unconditional off command, so the dwell counters
are not all preserved across the mode switch. -/
theorem c9_counterexample :
    c9_state.pump_offtime_PT1T2 = 50 ∧
    (execute_algorithm c9_state c5_temp bp_off_status).pump_offtime_PT1T2 = 0 := by
  decide

/-- C9 amended: a boiler-off cycle resets both rule flags; PT2T1's counters
are not reset by the mode switch itself (a pump that stays on keeps counting
`runtime + 1`) and PT1T2's runtime is untouched, but PT1T2's off-time is
zeroed by the unconditional off command, and a switch to boiler-on zeroes
PT2T1's off-time through its forced-off. -/
theorem c9_mode_switch_effects (s : AlgorithmState) (t : TemperatureReadings)
    (st : PumpStatus) :
    (truthyBool st.BP = false →
       (execute_algorithm s t st).rule_one_active = false ∧
       (execute_algorithm s t st).rule_two_active = false ∧
       (execute_algorithm s t st).pump_offtime_PT1T2 = 0 ∧
       (execute_algorithm s t st).pump_runtime_PT1T2 = s.pump_runtime_PT1T2 ∧
       (truthyBool st.PT2T1 = s.pump_state_PT2T1 → s.pump_state_PT2T1 = true →
          (execute_algorithm s t st).pump_state_PT2T1 = true →
          (execute_algorithm s t st).pump_runtime_PT2T1 = s.pump_runtime_PT2T1 + 1)) ∧
    (truthyBool st.BP = true → s.pump_state_PT2T1 = true →
       (execute_algorithm s t st).pump_offtime_PT2T1 = 0) := by
  constructor
  · intro hbp
    rw [execute_bp_off s t st hbp]
    have hfields := boiler_off_PT1T2_fields s t st
    refine ⟨hfields.2.2.2.1, hfields.2.2.2.2, hfields.2.2.1, hfields.2.1, ?_⟩
    intro hmirror hon hfin
    have htr : truthyBool st.PT2T1 = true := hmirror.trans hon
    show (boiler_off_algorithm s t st).pump_runtime_PT2T1 = s.pump_runtime_PT2T1 + 1
    have hfin' : (boiler_off_algorithm s t st).pump_state_PT2T1 = true := hfin
    unfold boiler_off_algorithm at hfin' ⊢
    simp only [AlgorithmState.pump_state_PT2T1, AlgorithmState.pump_runtime_PT2T1]
      at hfin' ⊢
    set s2 := set_transfer_pump
      { s with rule_one_active := false, rule_two_active := false } Pump.PT1T2 false
      with hs2
    set s3 := boiler_off_transfer_step s2 t st with hs3
    set s4 := update_pump_counter s3 Pump.PT2T1 with hs4
    have h3state : s3.pump_state_PT2T1 = true := by
      by_contra hc
      have hcf : s3.pump_state_PT2T1 = false := by
        cases h : s3.pump_state_PT2T1
        · rfl
        · exact absurd h hc
      have h4 : s4.pump_state_PT2T1 = false := by rw [hs4, update_PT2T1_state, hcf]
      have := safety_check_keep_off s4 t st h4
      rw [this] at hfin'
      cases hfin'
    have h3run : s3.pump_runtime_PT2T1 = s.pump_runtime_PT2T1 := by
      rw [hs3, transfer_step_runtime_eq, htr]
      simp [hs2]
    rw [safety_check_runtime2, hs4, update_PT2T1_runtime, h3state, if_pos rfl, h3run]
  · intro hbp hon
    rw [execute_bp_on s t st hbp]
    show (boiler_on_algorithm s t st).pump_offtime_PT2T1 = 0
    have hpre_off : (boiler_on_pre s).pump_offtime_PT2T1 = 0 := by
      simp [boiler_on_pre, hon]
    have h1 := (apply_rule_one_PT2T1 (boiler_on_pre s) t st).2.2
    have h2 := (apply_rule_two_PT2T1 (apply_rule_one (boiler_on_pre s) t st) t st).2.2
    unfold boiler_on_algorithm
    cases hact : (apply_rule_one (boiler_on_pre s) t st).rule_one_active <;>
      simp [hact, h1, h2, hpre_off]

/-- Witness for the amended C9: the concrete boiler-off cycle of the
counterexample indeed clears the Rule One flag. -/
theorem c9_mode_switch_witness :
    (execute_algorithm c9_state c5_temp bp_off_status).rule_one_active = false :=
  ((c9_mode_switch_effects c9_state c5_temp bp_off_status).1 (by decide)).1

/-- C5 counterexample: with the boiler off and T1TOP absent, a PT2T1 pump
past its minimum on-time is commanded off — the energy rule's decision is not
skipped for the cycle, so the pump is not left unchanged. -/
theorem c5_counterexample :
    c5_temp.T1TOP = none ∧
    pt2t1_on_state.pump_state_PT2T1 = true ∧
    PUMP_MIN_ON_TIME ≤ pt2t1_on_state.pump_runtime_PT2T1 ∧
    (execute_algorithm pt2t1_on_state c5_temp pt2t1_on_status).pump_state_PT2T1 = false := by
  decide

/-- C5 amended: an absent tank reading makes the scaled-energy decision false
rather than skipping the rule: PT2T1 is never started in such a cycle, and a
currently running PT2T1 whose minimum on-time has elapsed is commanded off
because of the missing reading. -/
theorem c5_missing_reading_stops_PT2T1 (s : AlgorithmState)
    (t : TemperatureReadings) (st : PumpStatus)
    (hbp : truthyBool st.BP = false)
    (hmirror : truthyBool st.PT2T1 = s.pump_state_PT2T1)
    (hmiss : t.T1TOP = none ∨ t.T1MID = none ∨ t.T1BOT = none ∨
             t.T2TOP = none ∨ t.T2MID = none ∨ t.T2BOT = none) :
    (s.pump_state_PT2T1 = false → (execute_algorithm s t st).pump_state_PT2T1 = false) ∧
    (s.pump_state_PT2T1 = true → PUMP_MIN_ON_TIME ≤ s.pump_runtime_PT2T1 →
       (execute_algorithm s t st).pump_state_PT2T1 = false) := by
  have hsh : ∀ s' : AlgorithmState, should_transfer_tank2_to_tank1 s' t = false :=
    fun s' => should_transfer_of_missing s' t hmiss
  constructor
  · intro h0
    rw [execute_bp_off s t st hbp]
    show (boiler_off_algorithm s t st).pump_state_PT2T1 = false
    unfold boiler_off_algorithm
    simp only [AlgorithmState.pump_state_PT2T1]
    set s2 := set_transfer_pump
      { s with rule_one_active := false, rule_two_active := false } Pump.PT1T2 false
      with hs2
    set s3 := boiler_off_transfer_step s2 t st with hs3
    have h3 : s3.pump_state_PT2T1 = false := by
      rw [hs3, transfer_step_state_eq, hsh]
      have : s2.pump_state_PT2T1 = false := by rw [hs2]; simp [h0]
      simp [this]
    have h4 : (update_pump_counter s3 Pump.PT2T1).pump_state_PT2T1 = false := by
      rw [update_PT2T1_state, h3]
    exact safety_check_keep_off _ t st h4
  · intro h0 hrun
    have htr : truthyBool st.PT2T1 = true := hmirror.trans h0
    rw [execute_bp_off s t st hbp]
    show (boiler_off_algorithm s t st).pump_state_PT2T1 = false
    unfold boiler_off_algorithm
    simp only [AlgorithmState.pump_state_PT2T1]
    set s2 := set_transfer_pump
      { s with rule_one_active := false, rule_two_active := false } Pump.PT1T2 false
      with hs2
    set s3 := boiler_off_transfer_step s2 t st with hs3
    have h3 : s3.pump_state_PT2T1 = false := by
      rw [hs3, transfer_step_state_eq, hsh]
      have hr2 : s2.pump_runtime_PT2T1 = s.pump_runtime_PT2T1 := by rw [hs2]; simp
      simp [htr, hr2, hrun]
    have h4 : (update_pump_counter s3 Pump.PT2T1).pump_state_PT2T1 = false := by
      rw [update_PT2T1_state, h3]
    exact safety_check_keep_off _ t st h4

/-- Witness for the amended C5: the concrete missing-T1TOP cycle stops the
running PT2T1. -/
theorem c5_missing_reading_witness :
    (execute_algorithm pt2t1_on_state c5_temp pt2t1_on_status).pump_state_PT2T1 = false :=
  (c5_missing_reading_stops_PT2T1 pt2t1_on_state c5_temp pt2t1_on_status
    (by decide) (by decide) (Or.inl rfl)).2 (by decide) (by decide)

/-- C6 counterexample: with PT2T1 on and the scaled energy difference
strictly inside the hysteresis band (`1160/3 ≈ 386.7 Wh`), the pump is
nevertheless commanded off, because the independent safety override
(`T1BOT - T3TOP ≥ 200`) fires — the pump does not remain on. -/
theorem c6_counterexample :
    pt2t1_on_state.pump_state_PT2T1 = true ∧
    ENERGY_DIFF_STOP < scaled_diff_T2_T1 5000 5000 6000 5400 5400 5400 ∧
    scaled_diff_T2_T1 5000 5000 6000 5400 5400 5400 < ENERGY_DIFF_START ∧
    (execute_algorithm pt2t1_on_state c6_temp pt2t1_on_status).pump_state_PT2T1 = false := by
  refine ⟨rfl, ?_, ?_, ?_⟩
  · norm_num [scaled_diff_T2_T1, ENERGY_DIFF_STOP, tank_volume_Tank1,
      tank_volume_Tank2, SPECIFIC_HEAT_CAPACITY]
  · norm_num [scaled_diff_T2_T1, ENERGY_DIFF_START, tank_volume_Tank1,
      tank_volume_Tank2, SPECIFIC_HEAT_CAPACITY]
  · have hsh2 : should_transfer_tank2_to_tank1
        (set_transfer_pump
          { pt2t1_on_state with rule_one_active := false, rule_two_active := false }
          Pump.PT1T2 false) c6_temp = true := by
      rw [should_transfer_on_eq _ c6_temp 5000 5000 6000 5400 5400 5400
        (by decide) rfl rfl rfl rfl rfl rfl]
      norm_num [scaled_diff_T2_T1, ENERGY_DIFF_STOP, tank_volume_Tank1,
        tank_volume_Tank2, SPECIFIC_HEAT_CAPACITY]
    rw [execute_bp_off pt2t1_on_state c6_temp pt2t1_on_status (by decide)]
    show (boiler_off_algorithm pt2t1_on_state c6_temp pt2t1_on_status).pump_state_PT2T1 =
      false
    simp only [boiler_off_algorithm, boiler_off_transfer_step, hsh2, if_true]
    decide

/-- C6 amended: with PT2T1 on and all six tank readings present, as long as
the independent safety override does not fire, the pump remains commanded on
whenever the scaled energy difference exceeds `ENERGY_DIFF_STOP` (in
particular everywhere strictly inside the hysteresis band), and the energy
rule commands it off only when the difference is at or below
`ENERGY_DIFF_STOP` and the minimum on-time has elapsed. -/
theorem c6_hysteresis_with_override (s : AlgorithmState)
    (t : TemperatureReadings) (st : PumpStatus) (a1 b1 c1 a2 b2 c2 : Int)
    (hbp : truthyBool st.BP = false)
    (hmirror : truthyBool st.PT2T1 = s.pump_state_PT2T1)
    (hon : s.pump_state_PT2T1 = true)
    (h1 : t.T1TOP = some a1) (h2 : t.T1MID = some b1) (h3 : t.T1BOT = some c1)
    (h4 : t.T2TOP = some a2) (h5 : t.T2MID = some b2) (h6 : t.T2BOT = some c2)
    (hsafe : ∀ tp, t.T3TOP = some tp → c1 - tp < 200) :
    (ENERGY_DIFF_STOP < scaled_diff_T2_T1 a1 b1 c1 a2 b2 c2 →
       (execute_algorithm s t st).pump_state_PT2T1 = true) ∧
    ((execute_algorithm s t st).pump_state_PT2T1 = false →
       scaled_diff_T2_T1 a1 b1 c1 a2 b2 c2 ≤ ENERGY_DIFF_STOP ∧
       PUMP_MIN_ON_TIME ≤ s.pump_runtime_PT2T1) := by
  have htr : truthyBool st.PT2T1 = true := hmirror.trans hon
  have hsafe' : ∀ b tp, t.T1BOT = some b → t.T3TOP = some tp → b - tp < 200 := by
    intro b tp hb htp
    rw [h3] at hb
    injection hb with hb
    rw [← hb]
    exact hsafe tp htp
  have hexec : (execute_algorithm s t st).pump_state_PT2T1 =
      (boiler_off_algorithm s t st).pump_state_PT2T1 := by
    rw [execute_bp_off s t st hbp]
  have hstage : (boiler_off_algorithm s t st).pump_state_PT2T1 =
      (boiler_off_transfer_step
        (set_transfer_pump
          { s with rule_one_active := false, rule_two_active := false }
          Pump.PT1T2 false)
        t st).pump_state_PT2T1 := by
    unfold boiler_off_algorithm
    simp only [AlgorithmState.pump_state_PT2T1]
    rw [safety_check_id_of_cool _ t st hsafe', update_PT2T1_state]
  have hs2on : (set_transfer_pump
      { s with rule_one_active := false, rule_two_active := false }
      Pump.PT1T2 false).pump_state_PT2T1 = true := by
    simp [hon]
  have hs2run : (set_transfer_pump
      { s with rule_one_active := false, rule_two_active := false }
      Pump.PT1T2 false).pump_runtime_PT2T1 = s.pump_runtime_PT2T1 := by simp
  have hshould : should_transfer_tank2_to_tank1
      (set_transfer_pump
        { s with rule_one_active := false, rule_two_active := false }
        Pump.PT1T2 false) t =
      decide (scaled_diff_T2_T1 a1 b1 c1 a2 b2 c2 > ENERGY_DIFF_STOP) :=
    should_transfer_on_eq _ t a1 b1 c1 a2 b2 c2 hs2on h1 h2 h3 h4 h5 h6
  constructor
  · intro hdiff
    rw [hexec, hstage, transfer_step_state_eq, hshould, htr]
    simp [hdiff, hs2on]
  · intro hoff
    rw [hexec, hstage, transfer_step_state_eq, hshould, htr] at hoff
    revert hoff
    split
    · rename_i hcond
      simp only [decide_eq_true_eq] at hcond
      simp [hs2on]
    · split
      · rename_i hcond hcond2
        intro _
        simp only [decide_eq_true_eq, Bool.not_eq_true] at hcond
        simp only [Bool.and_eq_true, decide_eq_true_eq] at hcond2
        rw [hs2run] at hcond2
        exact ⟨by exact le_of_not_lt (fun hlt => by simp [hlt] at hcond), hcond2.2⟩
      · rw [hs2on]
        intro h
        cases h

/-- Witness for the amended C6: at the concrete in-band snapshot with a cool
T3TOP the running PT2T1 stays commanded on. -/
theorem c6_hysteresis_witness :
    (execute_algorithm pt2t1_on_state c6_temp_safe pt2t1_on_status).pump_state_PT2T1 =
      true :=
  (c6_hysteresis_with_override pt2t1_on_state c6_temp_safe pt2t1_on_status
    5000 5000 6000 5400 5400 5400 (by decide) (by decide) (by decide)
    rfl rfl rfl rfl rfl rfl
    (fun tp htp => by
      have h : (5900 : Int) = tp := by injection htp
      omega)).1
    (by norm_num [scaled_diff_T2_T1, ENERGY_DIFF_STOP, tank_volume_Tank1,
      tank_volume_Tank2, SPECIFIC_HEAT_CAPACITY])

/-- Helper: Python truthiness of an optional integer unfolded. -/
theorem truthyInt_iff (o : Option Int) :
    truthyInt o = true ↔ ∃ v, o = some v ∧ v ≠ 0 := by
  cases o <;> simp [truthyInt]

/-- C4: an absent temperature field can never command a pump on — the
emergency condition and Rule Two's start condition hold only with their
fields present and over threshold, an absent tank reading forces the
scaled-energy decision to false, Rule One is entirely independent of T2TOP,
and an off-to-on command for either pump in a cycle requires the respective
present-field condition to be true. -/
theorem c4_missing_field_never_commands_on :
    (∀ t : TemperatureReadings, emergency_condition t = true →
       (∃ v, t.TBTOP = some v ∧ v > BOILER_OVERHEAT_THRESHOLD) ∨
       (∃ v, t.T1BOT = some v ∧ v > CRITICAL_TANK_TEMP) ∨
       (∃ v, t.TRET = some v ∧ v > RETURNS_TEMP_ON_THRESHOLD)) ∧
    (∀ t : TemperatureReadings, rule_two_pump_start t = true →
       (∃ v, t.TRET = some v ∧ v > RETURNS_TEMP_ON_THRESHOLD) ∨
       (∃ a b c, t.T1BOT = some a ∧ t.T1MID = some b ∧ t.T2TOP = some c ∧
          a ≥ 5800 ∧ b > c + TEMP_DIFF_ON_THRESHOLD)) ∧
    (∀ (s : AlgorithmState) (t : TemperatureReadings),
       t.T1TOP = none ∨ t.T1MID = none ∨ t.T1BOT = none ∨
         t.T2TOP = none ∨ t.T2MID = none ∨ t.T2BOT = none →
       should_transfer_tank2_to_tank1 s t = false) ∧
    (∀ (s : AlgorithmState) (t : TemperatureReadings) (st : PumpStatus)
       (x : Option Int),
       apply_rule_one s { t with T2TOP := x } st = apply_rule_one s t st) ∧
    (∀ (s : AlgorithmState) (t : TemperatureReadings) (st : PumpStatus),
       s.pump_state_PT1T2 = false →
       (execute_algorithm s t st).pump_state_PT1T2 = true →
       emergency_condition t = true ∨ rule_two_pump_start t = true) ∧
    (∀ (s : AlgorithmState) (t : TemperatureReadings) (st : PumpStatus),
       s.pump_state_PT2T1 = false →
       (execute_algorithm s t st).pump_state_PT2T1 = true →
       should_transfer_tank2_to_tank1 s t = true) := by
  refine ⟨?_, ?_, ?_, ?_, ?_, ?_⟩
  · intro t h
    simp only [emergency_condition, Bool.or_eq_true, Bool.and_eq_true,
      decide_eq_true_eq] at h
    rcases h with (h | h) | h
    · obtain ⟨v, hv, hnz⟩ := (truthyInt_iff t.TBTOP).mp h.1
      have := h.2
      rw [hv] at this
      exact Or.inl ⟨v, hv, this⟩
    · obtain ⟨v, hv, hnz⟩ := (truthyInt_iff t.T1BOT).mp h.1
      have := h.2
      rw [hv] at this
      exact Or.inr (Or.inl ⟨v, hv, this⟩)
    · obtain ⟨v, hv, hnz⟩ := (truthyInt_iff t.TRET).mp h.1
      have := h.2
      rw [hv] at this
      exact Or.inr (Or.inr ⟨v, hv, this⟩)
  · intro t h
    unfold rule_two_pump_start at h
    by_cases h1 : (truthyInt t.TRET &&
        decide (t.TRET.getD 0 > RETURNS_TEMP_ON_THRESHOLD)) = true
    · obtain ⟨hT, hgt⟩ := by simpa using h1
      obtain ⟨v, hv, hnz⟩ := (truthyInt_iff t.TRET).mp hT
      rw [hv] at hgt
      exact Or.inl ⟨v, hv, hgt⟩
    · rw [if_neg h1] at h
      by_cases h2 : (decide (t.T1BOT ≠ none) && decide (t.T1MID ≠ none) &&
          decide (t.T2TOP ≠ none)) = true
      · rw [if_pos h2] at h
        simp only [Bool.and_eq_true, decide_eq_true_eq] at h2 h
        obtain ⟨⟨hbne, hmne⟩, htne⟩ := h2
        obtain ⟨a, ha⟩ := Option.ne_none_iff_exists'.mp hbne
        obtain ⟨b, hb⟩ := Option.ne_none_iff_exists'.mp hmne
        obtain ⟨c, hc⟩ := Option.ne_none_iff_exists'.mp htne
        rw [ha, hb, hc] at h
        exact Or.inr ⟨a, b, c, ha, hb, hc, by simpa using h.1, by simpa using h.2⟩
      · rw [if_neg h2] at h
        cases h
  · intro s t hmiss
    exact should_transfer_of_missing s t hmiss
  · intro s t st x
    rfl
  · intro s t st h0 hon
    cases hbp : truthyBool st.BP
    · rw [execute_bp_off s t st hbp] at hon
      have := (boiler_off_PT1T2_fields s t st).1
      rw [show ({ boiler_off_algorithm s t st with
            boiler_off_active := true } : AlgorithmState).pump_state_PT1T2 =
          (boiler_off_algorithm s t st).pump_state_PT1T2 from rfl, this] at hon
      cases hon
    · rw [execute_bp_on s t st hbp] at hon
      rcases boiler_on_turn_on_floor s t st h0 hon with h | h
      · exact Or.inl h
      · exact Or.inr h.1
  · intro s t st h0 hon
    cases hbp : truthyBool st.BP
    · rw [execute_bp_off s t st hbp] at hon
      exact (boiler_off_turn_on_floor s t st h0 hon).1
    · rw [execute_bp_on s t st hbp] at hon
      have := boiler_on_PT2T1_off s t st
      rw [show ({ boiler_on_algorithm s t st with
            boiler_off_active := false } : AlgorithmState).pump_state_PT2T1 =
          (boiler_on_algorithm s t st).pump_state_PT2T1 from rfl, this] at hon
      cases hon

/-- Witness for C4: at the concrete missing-T1TOP snapshot the scaled-energy
decision is false, and Rule One gives the same result with T2TOP erased. -/
theorem c4_missing_field_witness :
    should_transfer_tank2_to_tank1 fresh_state c5_temp = false ∧
    apply_rule_one fresh_state { c3_temp with T2TOP := none } bp_on_status =
      apply_rule_one fresh_state c3_temp bp_on_status :=
  ⟨c4_missing_field_never_commands_on.2.2.1 fresh_state c5_temp (Or.inl rfl),
   c4_missing_field_never_commands_on.2.2.2.1 fresh_state c3_temp bp_on_status none⟩

/-- Helper: with the observed status off, the pump off and the off-time floor
unmet, Rule Two performs only its flag reset and counter update. -/
theorem apply_rule_two_no_action (s : AlgorithmState) (t : TemperatureReadings)
    (st : PumpStatus) (htr : truthyBool st.PT1T2 = false)
    (hs : s.pump_state_PT1T2 = false)
    (hlow : ¬ PUMP_MIN_OFF_TIME ≤ s.pump_offtime_PT1T2) :
    apply_rule_two s t st =
      update_pump_counter { s with rule_two_active := false } Pump.PT1T2 := by
  simp [apply_rule_two, htr, hs, hlow]

/-- Helper: one closed-loop boiler-on cycle with no emergency, the pump off
and the off-time floor out of reach leaves PT1T2 off and advances its
off-time counter by two (Rule One and Rule Two each update it once). -/
theorem step_closed_on_idle (s : AlgorithmState) (t : TemperatureReadings)
    (he : emergency_condition t = false)
    (hoff : s.pump_state_PT1T2 = false)
    (hflag : s.rule_one_active = false)
    (hlow : s.pump_offtime_PT1T2 + 1 < PUMP_MIN_OFF_TIME) :
    (step_closed s t true).pump_state_PT1T2 = false ∧
    (step_closed s t true).pump_offtime_PT1T2 = s.pump_offtime_PT1T2 + 2 ∧
    (step_closed s t true).rule_one_active = false := by
  set st0 : PumpStatus := { BP := some true, PT2T1 := some s.pump_state_PT2T1, PT1T2 := some s.pump_state_PT1T2, WDT := none } with hst0
  have hbp : truthyBool st0.BP = true := rfl
  have htr : truthyBool st0.PT1T2 = false := by
    rw [hst0]
    simp [truthyBool, hoff]
  have hpre : (boiler_on_pre s).rule_one_active = false := by
    rw [boiler_on_pre_rule_one, hflag]
  have hidle := apply_rule_one_idle (boiler_on_pre s) t st0 he hpre
  have ha_state : (apply_rule_one (boiler_on_pre s) t st0).pump_state_PT1T2 = false := by
    rw [hidle, update_PT1T2_state, boiler_on_pre_PT1T2_state, hoff]
  have ha_off : (apply_rule_one (boiler_on_pre s) t st0).pump_offtime_PT1T2 =
      s.pump_offtime_PT1T2 + 1 := by
    rw [hidle, update_PT1T2_offtime, boiler_on_pre_PT1T2_state, hoff]
    simp
  have ha_flag : (apply_rule_one (boiler_on_pre s) t st0).rule_one_active = false := by
    rw [hidle, update_PT1T2_rule_one, boiler_on_pre_rule_one, hflag]
  have hlow' : ¬ PUMP_MIN_OFF_TIME ≤
      (apply_rule_one (boiler_on_pre s) t st0).pump_offtime_PT1T2 := by
    rw [ha_off]
    omega
  have hrt := apply_rule_two_no_action (apply_rule_one (boiler_on_pre s) t st0) t st0
    htr ha_state hlow'
  have hstep : step_closed s t true =
      { boiler_on_algorithm s t st0 with boiler_off_active := false } := by
    unfold step_closed
    rw [← hst0]
    exact execute_bp_on s t st0 hbp
  have hbody : boiler_on_algorithm s t st0 =
      update_pump_counter
        { apply_rule_one (boiler_on_pre s) t st0 with rule_two_active := false }
        Pump.PT1T2 := by
    simp only [boiler_on_algorithm, ha_flag, Bool.not_false, if_true]
    rw [ha_flag] at hrt
    exact hrt
  rw [hstep]
  have hmid_state : ({ apply_rule_one (boiler_on_pre s) t st0 with
      rule_two_active := false } : AlgorithmState).pump_state_PT1T2 = false := ha_state
  have hmid_off : ({ apply_rule_one (boiler_on_pre s) t st0 with
      rule_two_active := false } : AlgorithmState).pump_offtime_PT1T2 =
      s.pump_offtime_PT1T2 + 1 := ha_off
  refine ⟨?_, ?_, ?_⟩
  · show (boiler_on_algorithm s t st0).pump_state_PT1T2 = false
    rw [hbody, update_PT1T2_state]
    exact hmid_state
  · show (boiler_on_algorithm s t st0).pump_offtime_PT1T2 = _
    rw [hbody, update_PT1T2_offtime, hmid_state]
    simp only [Bool.false_eq_true, if_false]
    rw [hmid_off]
  · show (boiler_on_algorithm s t st0).rule_one_active = false
    rw [hbody, update_PT1T2_rule_one]
    exact ha_flag

/-- Helper: starting off with the Rule One flag clear, PT1T2 stays off for
any run of emergency-free closed-loop boiler-on cycles short enough that the
double-incremented off-time counter cannot reach the floor. -/
theorem run_on_stays_off (n : Nat) (ts : Nat → TemperatureReadings)
    (s : AlgorithmState)
    (hem : ∀ i, emergency_condition (ts i) = false)
    (hoff : s.pump_state_PT1T2 = false)
    (hflag : s.rule_one_active = false)
    (hbound : s.pump_offtime_PT1T2 + 2 * n ≤ PUMP_MIN_OFF_TIME) :
    (run_on ts n s).pump_state_PT1T2 = false ∧
    (run_on ts n s).pump_offtime_PT1T2 = s.pump_offtime_PT1T2 + 2 * n ∧
    (run_on ts n s).rule_one_active = false := by
  induction n generalizing ts s with
  | zero => exact ⟨hoff, by simp [run_on], hflag⟩
  | succ n ih =>
      have hlow : s.pump_offtime_PT1T2 + 1 < PUMP_MIN_OFF_TIME := by
        have : (0 : Nat) < PUMP_MIN_OFF_TIME := by decide
        omega
      obtain ⟨h1, h2, h3⟩ := step_closed_on_idle s (ts 0) (hem 0) hoff hflag hlow
      have hrec := ih (fun i => ts (i + 1)) (step_closed s (ts 0) true)
        (fun i => hem (i + 1)) h1 h3 (by rw [h2]; omega)
      refine ⟨?_, ?_, ?_⟩
      · show (run_on ts (n + 1) s).pump_state_PT1T2 = false
        rw [run_on]
        exact hrec.1
      · show (run_on ts (n + 1) s).pump_offtime_PT1T2 = _
        rw [run_on, hrec.2.1, h2]
        omega
      · show (run_on ts (n + 1) s).rule_one_active = false
        rw [run_on]
        exact hrec.2.2

/-- C10 counterexample: from a fresh state (PT1T2 off, off-time zero — the
state left by any boiler-off cycle), 51 consecutive emergency-free closed-loop
boiler-on cycles suffice for Rule Two to command PT1T2 on, although
`PUMP_MIN_OFF_TIME = 100` cycles have not elapsed: the off-time counter is
updated twice per cycle (once by Rule One, once by Rule Two). -/
theorem c10_counterexample :
    emergency_condition c10_temp = false ∧
    (run_on (fun _ => c10_temp) 51 fresh_state).pump_state_PT1T2 = true ∧
    (run_on (fun _ => c10_temp) 51 fresh_state).rule_two_active = true ∧
    51 < PUMP_MIN_OFF_TIME := by
  set_option maxRecDepth 4000 in decide

/-- C10 amended: every boiler-off cycle zeroes PT1T2's off-time counter (the
unconditional off command resets it and only PT2T1's counters are updated);
consequently, after BP turns back on with the counter at zero, Rule N cannot
command PT1T2 on during the first 50 emergency-free boiler-on cycles — but,
because the counter is updated twice per boiler-on cycle, it can already do
so at cycle 51, not after `PUMP_MIN_OFF_TIME = 100` cycles. -/
theorem c10_offtime_zeroed_and_restart_bound :
    (∀ (s : AlgorithmState) (t : TemperatureReadings) (st : PumpStatus),
       truthyBool st.BP = false →
       (execute_algorithm s t st).pump_offtime_PT1T2 = 0 ∧
       (execute_algorithm s t st).pump_state_PT1T2 = false) ∧
    (∀ (ts : Nat → TemperatureReadings) (s : AlgorithmState) (n : Nat),
       (∀ i, emergency_condition (ts i) = false) →
       s.pump_state_PT1T2 = false → s.rule_one_active = false →
       s.pump_offtime_PT1T2 = 0 → n ≤ 50 →
       (run_on ts n s).pump_state_PT1T2 = false) := by
  constructor
  · intro s t st hbp
    rw [execute_bp_off s t st hbp]
    have hfields := boiler_off_PT1T2_fields s t st
    exact ⟨hfields.2.2.1, hfields.1⟩
  · intro ts s n hem hoff hflag hzero hn
    exact (run_on_stays_off n ts s hem hoff hflag
      (by rw [hzero]; simp only [PUMP_MIN_OFF_TIME]; omega)).1

/-- Witness for the amended C10: 50 concrete emergency-free boiler-on cycles
leave PT1T2 off, and the concrete boiler-off cycle zeroes the off-time. -/
theorem c10_restart_bound_witness :
    (run_on (fun _ => c10_temp) 50 fresh_state).pump_state_PT1T2 = false ∧
    (execute_algorithm c9_state c2_temp bp_off_status).pump_offtime_PT1T2 = 0 :=
  ⟨c10_offtime_zeroed_and_restart_bound.2 (fun _ => c10_temp) fresh_state 50
    (fun _ => (by decide : emergency_condition c10_temp = false))
    (by decide) (by decide) (by decide) (by decide),
   (c10_offtime_zeroed_and_restart_bound.1 c9_state c2_temp bp_off_status (by decide)).1⟩

end LogiviewLogo8
